import Mathlib

/-!
# werf: CI environment exporter, image publish command, ansible config node

A shallow embedding of

* `cmd/werf/ci_env/ci_env.go`
* `cmd/werf/images/publish/cmd_factory/main.go`
* `pkg/docker/main.go`
* `pkg/config/raw_ansible.go`

Go `error` values are represented by their message (`String`), a `nil` error
by `none`.  Standard output is the list of lines written, one element per
`fmt.Println` (or `fmt.Printf` ending in a newline).  Calls into packages
whose code is not part of these files are fields of a record holding their
results, so every function below is a total, executable function of that
record.
-/

namespace Werf

/-- Go `strings.HasPrefix` on the character data of two strings. -/
def hasPrefix (s pre : String) : Bool := pre.data.isPrefixOf s.data

/-- How a Go function ends: by returning an error value (`none` for `nil`),
or by a run-time panic. -/
inductive Outcome where
  | returned (err : Option String)
  | panic (msg : String)
deriving DecidableEq, Repr

/-! ## cmd/werf/ci_env -/

namespace CiEnv

/-- The flag values of the `ci-env` command (`var CmdData struct`). -/
structure CmdData where
  TaggingStrategy : String
  Verbose : Bool

/-- The `CleanupConfig` struct of `ci_env.go`. -/
structure CleanupConfig where
  GitTagStrategyLimit : Int
  GitTagStrategyExpiryDays : Int
  GitCommitStrategyLimit : Int
  GitCommitStrategyExpiryDays : Int
deriving DecidableEq, Repr

/-- Everything `ci_env.go` reads from outside itself: the process environment,
the common command flags, and the results of the calls it makes into other
packages (`werf`, `lock`, `common`, `tmp_manager`, `docker_registry`,
`docker`, `slug`, `os`, `ioutil`, `yaml`, `filepath`). -/
structure World where
  /-- Go `os.Getenv`: the empty string for an unset variable. -/
  getenv : String → String
  /-- Flag `*CommonCmdData.TmpDir`. -/
  TmpDir : String
  /-- Flag `*CommonCmdData.HomeDir`. -/
  HomeDir : String
  /-- Flag `*CommonCmdData.DockerConfig`. -/
  DockerConfig : String
  /-- Flag `*CommonCmdData.InsecureRepo`. -/
  InsecureRepo : Bool
  /-- Go `werf.Init(tmpDir, homeDir)`. -/
  werfInit : String → String → Option String
  /-- Go `lock.Init()`. -/
  lockInit : Option String
  /-- Go `common.ValidateArgumentCount(expected, args, cmd)`. -/
  validateArgumentCount : Nat → List String → Option String
  /-- Go `filepath.Join`. -/
  filepathJoin : List String → String
  /-- Go `tmp_manager.CreateDockerConfigDir`. -/
  createDockerConfigDir : String → Except String String
  /-- Go `docker_registry.Init(Options{AllowInsecureRepo: ...})`. -/
  dockerRegistryInit : Bool → Option String
  /-- Go `docker.Init(dockerConfigDir)`. -/
  dockerInit : String → Option String
  /-- Go `docker_registry.IsGCR`. -/
  isGCR : String → Except String Bool
  /-- Go `docker.Login(username, password, repo)`. -/
  dockerLogin : String → String → String → Option String
  /-- Go `slug.DockerTag`. -/
  DockerTag : String → String
  /-- Go `werf.GetHomeDir()`. -/
  werfGetHomeDir : String
  /-- Go `os.IsNotExist(err)` for the error of `os.Stat(path)`. -/
  statIsNotExist : String → Bool
  /-- Go `ioutil.ReadFile`. -/
  readFile : String → Except String String
  /-- Go `yaml.Unmarshal(data, &config)` into a zero `CleanupConfig`. -/
  yamlUnmarshal : String → Except String CleanupConfig

/-- What `runCIEnv` does that an observer can see, in order. -/
inductive Event where
  /-- Go `common.PrintHelp(cmd)`. -/
  | help
  /-- The call of `generateGitlabEnvs`. -/
  | gitlabEnvs
  /-- One line written to standard output. -/
  | line (s : String)
deriving DecidableEq, Repr

/-- Go `printError`. -/
def printError (cmd : CmdData) (errMsg : String) : List String :=
  (if cmd.Verbose then ["echo", "echo 'Error: " ++ errMsg ++ "'"] else [])
    ++ ["exit 1", ""]

/-- Go `printHeader`. -/
def printHeader (cmd : CmdData) (header : String) (withNewLine : Bool) : List String :=
  let header := "### " ++ header
  (if withNewLine then [""] else [])
    ++ [header]
    ++ (if cmd.Verbose then
          (if withNewLine then ["echo"] else []) ++ ["echo '" ++ header ++ "'"]
        else [])

/-- Go `printExportCommand`. -/
def printExportCommand (cmd : CmdData) (key value : String) : List String :=
  let exportCommand := "export " ++ key ++ "=\"" ++ value ++ "\""
  let exportCommand := if value = "" then "# " ++ exportCommand else exportCommand
  [exportCommand]
    ++ (if cmd.Verbose then ["echo '" ++ exportCommand ++ "'"] else [])

/-- Go `getCleanupConfig`. -/
def getCleanupConfig (w : World) : Except String CleanupConfig :=
  let configPath := w.filepathJoin [w.werfGetHomeDir, "config", "cleanup.yaml"]
  if w.statIsNotExist configPath then
    .ok { GitTagStrategyLimit := 10, GitTagStrategyExpiryDays := 30,
          GitCommitStrategyLimit := 50, GitCommitStrategyExpiryDays := 30 }
  else
    match w.readFile configPath with
    | .error err => .error ("error reading " ++ configPath ++ ": " ++ err)
    | .ok data =>
      match w.yamlUnmarshal data with
      | .error err => .error ("bad config yaml " ++ configPath ++ ": " ++ err)
      | .ok config => .ok config

/-- Lines 89-131 of `generateGitlabEnvs`: the temporary docker config, the
registry and docker initialisation and the optional login.  Nothing is
printed here.  On success the pair `(dockerConfig, imagesRepo)` is what the
rest of the function uses. -/
def gitlabSetup (w : World) : Except String (String × String) :=
  let dockerConfigPath :=
    if w.DockerConfig = "" then w.filepathJoin [w.getenv "HOME", ".docker"]
    else w.DockerConfig
  match w.createDockerConfigDir dockerConfigPath with
  | .error err => .error ("unable to create tmp docker config: " ++ err)
  | .ok dockerConfig =>
    match w.dockerRegistryInit w.InsecureRepo with
    | some err => .error err
    | none =>
      match w.dockerInit dockerConfig with
      | some err => .error err
      | none =>
        let imagesRepo := w.getenv "CI_REGISTRY_IMAGE"
        let login : Except String (Option (String × String)) :=
          if imagesRepo ≠ "" then
            match w.isGCR imagesRepo with
            | .error err => .error err
            | .ok isGRC =>
              if !isGRC && w.getenv "CI_JOB_TOKEN" != "" then
                .ok (some ("gitlab-ci-token", w.getenv "CI_JOB_TOKEN"))
              else .ok none
          else .ok none
        match login with
        | .error err => .error err
        | .ok none => .ok (dockerConfig, imagesRepo)
        | .ok (some (imagesUsername, imagesPassword)) =>
          match w.dockerLogin imagesUsername imagesPassword imagesRepo with
          | some err =>
            .error ("unable to login into docker repo " ++ imagesRepo ++ ": " ++ err)
          | none => .ok (dockerConfig, imagesRepo)

/-- Lines 133-143 of `generateGitlabEnvs`: the pair `(ciGitTag, ciGitBranch)`. -/
def gitlabTagFacts (getenv : String → String) : String × String :=
  if getenv "CI_BUILD_TAG" ≠ "" then (getenv "CI_BUILD_TAG", "")
  else if getenv "CI_COMMIT_TAG" ≠ "" then (getenv "CI_COMMIT_TAG", "")
  else if getenv "CI_BUILD_REF_NAME" ≠ "" then ("", getenv "CI_BUILD_REF_NAME")
  else if getenv "CI_COMMIT_REF_NAME" ≠ "" then ("", getenv "CI_COMMIT_REF_NAME")
  else ("", "")

/-- Lines 151-157 of `generateGitlabEnvs`: the TAGGING section. -/
def gitlabTagging (w : World) (cmd : CmdData) (ciGitTag ciGitBranch : String) :
    List String :=
  printHeader cmd "TAGGING" true
    ++ (if ciGitTag ≠ "" then
          printExportCommand cmd "WERF_TAG_GIT_TAG" (w.DockerTag ciGitTag) else [])
    ++ (if ciGitBranch ≠ "" then
          printExportCommand cmd "WERF_TAG_GIT_BRANCH" (w.DockerTag ciGitBranch) else [])

/-- Go `generateGitlabEnvs`: the lines written and the error returned. -/
def generateGitlabEnvs (w : World) (cmd : CmdData) : List String × Option String :=
  match gitlabSetup w with
  | .error err => ([], some err)
  | .ok (dockerConfig, imagesRepo) =>
    let (ciGitTag, ciGitBranch) := gitlabTagFacts w.getenv
    let out :=
      printHeader cmd "DOCKER CONFIG" false
        ++ printExportCommand cmd "DOCKER_CONFIG" dockerConfig
        ++ printHeader cmd "IMAGES REPO" true
        ++ printExportCommand cmd "WERF_IMAGES_REPO" imagesRepo
        ++ gitlabTagging w cmd ciGitTag ciGitBranch
        ++ printHeader cmd "DEPLOY" true
        ++ printExportCommand cmd "WERF_ENV" (w.getenv "CI_ENVIRONMENT_SLUG")
        ++ printExportCommand cmd "WERF_ADD_ANNOTATION_GIT_REPOSITORY_URL"
            ("project.werf.io/gitlab-url=" ++ w.getenv "CI_PROJECT_URL")
    match getCleanupConfig w with
    | .error err => (out, some ("unable to get cleanup config: " ++ err))
    | .ok cleanupConfig =>
      let out := out
        ++ printHeader cmd "IMAGE CLEANUP POLICIES" true
        ++ printExportCommand cmd "WERF_GIT_TAG_STRATEGY_LIMIT"
            (toString cleanupConfig.GitTagStrategyLimit)
        ++ printExportCommand cmd "WERF_GIT_TAG_STRATEGY_EXPIRY_DAYS"
            (toString cleanupConfig.GitTagStrategyExpiryDays)
        ++ printExportCommand cmd "WERF_GIT_COMMIT_STRATEGY_LIMIT"
            (toString cleanupConfig.GitCommitStrategyLimit)
        ++ printExportCommand cmd "WERF_GIT_COMMIT_STRATEGY_EXPIRY_DAYS"
            (toString cleanupConfig.GitCommitStrategyExpiryDays)
        ++ printHeader cmd "OTHER" true
        ++ printExportCommand cmd "WERF_LOG_COLOR_MODE" "on"
        ++ printExportCommand cmd "WERF_LOG_PROJECT_DIR" "1"
        ++ printExportCommand cmd "WERF_ENABLE_PROCESS_EXTERMINATOR" "1"
        ++ printExportCommand cmd "WERF_LOG_TERMINAL_WIDTH" "100"
      if ciGitTag = "" ∧ ciGitBranch = "" then
        (out, some ("none of enviroment variables $WERF_TAG_GIT_TAG=$CI_COMMIT_TAG or "
          ++ "$WERF_TAG_GIT_BRANCH=$CI_COMMIT_REF_NAME for '" ++ cmd.TaggingStrategy
          ++ "' strategy are detected"))
      else (out, none)

/-- Go `runCIEnv`: the observable events in order, and how the call ends.
`args[0]` on an empty argument list is Go's index-out-of-range panic. -/
def runCIEnv (w : World) (cmd : CmdData) (args : List String) : List Event × Outcome :=
  match w.werfInit w.TmpDir w.HomeDir with
  | some err => ([], .returned (some ("initialization error: " ++ err)))
  | none =>
    match w.lockInit with
    | some err => ([], .returned (some err))
    | none =>
      match w.validateArgumentCount 1 args with
      | some err => ([], .returned (some err))
      | none =>
        if cmd.TaggingStrategy = "tag-or-branch" then
          match args with
          | [] => ([], .panic "index out of range")
          | ciSystem :: _ =>
            if ciSystem = "gitlab" then
              let (out, err) := generateGitlabEnvs w cmd
              match err with
              | some msg =>
                ([Event.gitlabEnvs] ++ out.map Event.line
                    ++ ([""] ++ printError cmd msg).map Event.line,
                  .returned (some msg))
              | none => ([Event.gitlabEnvs] ++ out.map Event.line, .returned none)
            else
              ([Event.help],
                .returned (some ("provided ci system '" ++ ciSystem ++ "' not supported")))
        else
          ([Event.help],
            .returned (some ("provided tagging-strategy '" ++ cmd.TaggingStrategy
              ++ "' not supported")))

/-- A script line that sets `key`: it starts with `export key=`. -/
def exportsVar (key : String) (out : List String) : Bool :=
  out.any (fun line => hasPrefix line ("export " ++ key ++ "="))

/-- The script lines that set `key`, in the order written. -/
def exportLines (key : String) (out : List String) : List String :=
  out.filter (fun line => hasPrefix line ("export " ++ key ++ "="))

/-- Two character lists that differ at a position both have. -/
def prefixClash : List Char → List Char → Bool
  | a :: p, b :: q => a != b || prefixClash p q
  | _, _ => false

/-- A world in which every collaborator of `ci_env.go` succeeds and the
process environment is `env`: docker config dir `/tmp/werf-docker`, no
`cleanup.yaml`, and `slug.DockerTag` leaving its argument as it is. -/
def okWorld (env : String → String) : World where
  getenv := env
  TmpDir := ""
  HomeDir := ""
  DockerConfig := ""
  InsecureRepo := false
  werfInit := fun _ _ => none
  lockInit := none
  validateArgumentCount := fun n args =>
    if args.length = n then none else some "wrong argument count"
  filepathJoin := fun parts => "/".intercalate parts
  createDockerConfigDir := fun _ => .ok "/tmp/werf-docker"
  dockerRegistryInit := fun _ => none
  dockerInit := fun _ => none
  isGCR := fun _ => .ok false
  dockerLogin := fun _ _ _ => none
  DockerTag := fun s => s
  werfGetHomeDir := "/home/ci/.werf"
  statIsNotExist := fun _ => true
  readFile := fun _ => .error "no such file"
  yamlUnmarshal := fun _ => .error "no data"

/-- A job for the tag `v1.0` on which the branch variable is set as well. -/
def tagJobEnv : String → String := fun k =>
  if k = "CI_COMMIT_TAG" then "v1.0"
  else if k = "CI_COMMIT_REF_NAME" then "v1.0" else ""

/-- A job in which `CI_BUILD_TAG` is `v2.0` while `CI_COMMIT_TAG` is `v1.0`. -/
def twoTagsJobEnv : String → String := fun k =>
  if k = "CI_BUILD_TAG" then "v2.0"
  else if k = "CI_COMMIT_TAG" then "v1.0" else ""

/-- A job in which no tag and no branch variable is set. -/
def bareJobEnv : String → String := fun _ => ""

end CiEnv

/-! ## pkg/docker -/

namespace Docker

/-- The calls `pkg/docker/main.go` makes outside itself, in the order made. -/
inductive Effect where
  /-- Go `cliconfig.SetDir(dir)`. -/
  | setDir (dir : String)
  /-- Go `os.Setenv(key, value)`. -/
  | setenv (key value : String)
  /-- Go `command.NewDockerCli(...)`. -/
  | newDockerCli
  /-- Go `newCli.Initialize(opts)`. -/
  | cliInit
  /-- Go `cli.Client().ServerVersion(ctx)`: a request to the docker daemon. -/
  | serverVersion
  /-- Go `client.NewClientWithOpts(client.WithVersion(apiVersion))`. -/
  | newClientWithOpts (apiVersion : String)
deriving DecidableEq, Repr

/-- Results of the calls `pkg/docker/main.go` makes outside itself. -/
structure World where
  /-- Go `os.Setenv(key, value)`. -/
  setenv : String → String → Option String
  /-- Go `command.NewDockerCli(...)`: its error. -/
  newDockerCli : Option String
  /-- Go `newCli.Initialize(opts)`. -/
  cliInit : Option String
  /-- Go `cli.Client().ServerVersion(ctx)`: the `APIVersion` of the
  `types.Version` returned, and the error returned with it (both are returned
  together, and a version may come with an error). -/
  serverVersion : String × Option String
  /-- Go `client.NewClientWithOpts(client.WithVersion(apiVersion))`: its error. -/
  newClientWithOpts : String → Option String

/-- Go `setDockerClient`.  The two `SetIsTerminal` calls configure the streams of
the new client and are not recorded. -/
def setDockerClient (w : World) : List Effect × Option String :=
  match w.newDockerCli with
  | some err => ([.newDockerCli], some err)
  | none =>
    match w.cliInit with
    | some err => ([.newDockerCli, .cliInit], some err)
    | none => ([.newDockerCli, .cliInit], none)

/-- Go `setDockerApiClient`.  The error of `ServerVersion` is assigned to `err`
and overwritten by the next statement without being read;
`serverVersion.APIVersion` is passed on whatever that error was. -/
def setDockerApiClient (w : World) : List Effect × Option String :=
  let (serverVersion, _) := w.serverVersion
  match w.newClientWithOpts serverVersion with
  | some err => ([.serverVersion, .newClientWithOpts serverVersion], some err)
  | none => ([.serverVersion, .newClientWithOpts serverVersion], none)

/-- Go `Init`. -/
def Init (w : World) (dockerConfigDir : String) : List Effect × Option String :=
  let t0 := if dockerConfigDir ≠ "" then [Effect.setDir dockerConfigDir] else []
  let t1 := t0 ++ [Effect.setenv "DOCKER_CONFIG" dockerConfigDir]
  match w.setenv "DOCKER_CONFIG" dockerConfigDir with
  | some err =>
    (t1, some ("cannot set DOCKER_CONFIG to " ++ dockerConfigDir ++ ": " ++ err))
  | none =>
    match setDockerClient w with
    | (t2, some err) => (t1 ++ t2, some err)
    | (t2, none) =>
      match setDockerApiClient w with
      | (t3, some err) => (t1 ++ t2 ++ t3, some err)
      | (t3, none) => (t1 ++ t2 ++ t3, none)

/-- A docker environment whose daemon answers the version request with a
version and an error at once, while every other call succeeds. -/
def garbledDaemon : World where
  setenv := fun _ _ => none
  newDockerCli := none
  cliInit := none
  serverVersion := ("1.24", some "error reading the version answer")
  newClientWithOpts := fun _ => none

/-- A docker environment whose daemon does not answer the version request,
while every other call succeeds. -/
def silentDaemon : World where
  setenv := fun _ _ => none
  newDockerCli := none
  cliInit := none
  serverVersion := ("", some "cannot connect to the docker daemon")
  newClientWithOpts := fun _ => none

end Docker

/-! ## cmd/werf/images/publish/cmd_factory -/

namespace Publish

/-- What `runImagesPublish` reads of a loaded `werf.yaml`. -/
structure WerfConfig where
  /-- Go `werfConfig.Meta.Project`. -/
  Project : String
  /-- Go `werfConfig.HasImage(name)`. -/
  HasImage : String → Bool

/-- The calls `runImagesPublish` makes outside itself, in the order made. -/
inductive Effect where
  /-- Go `werf.Init`. -/
  | werfInit
  /-- Go `lock.Init`. -/
  | lockInit
  /-- Go `true_git.Init`. -/
  | trueGitInit
  /-- Go `docker_registry.Init`. -/
  | dockerRegistryInit
  /-- A call made by `docker.Init`. -/
  | docker (e : Docker.Effect)
  /-- Go `common.GetProjectDir`. -/
  | getProjectDir
  /-- Go `common.ProcessLogProjectDir`. -/
  | processLogProjectDir
  /-- Go `common.GetWerfConfig`. -/
  | getWerfConfig
  /-- Go `tmp_manager.CreateProjectDir`. -/
  | createProjectDir
  /-- Go `tmp_manager.ReleaseProjectDir(dir)`. -/
  | releaseProjectDir (dir : String)
  /-- Go `common.GetStagesRepo`. -/
  | getStagesRepo
  /-- Go `common.GetImagesRepo`. -/
  | getImagesRepo
  /-- Go `common.GetTagOptions`. -/
  | getTagOptions
  /-- Go `ssh_agent.Init`. -/
  | sshAgentInit
  /-- Go `ssh_agent.Terminate`. -/
  | sshAgentTerminate
  /-- Go `logboek.LogErrorF` with the formatted message. -/
  | logError (msg : String)
  /-- Go `build.NewConveyor`. -/
  | newConveyor
  /-- Go `c.PublishImages`. -/
  | publishImages
deriving DecidableEq, Repr

/-- A call that talks to the docker daemon or to a registry: the daemon
version request of `docker.Init` and `Conveyor.PublishImages`. -/
def Effect.isNetwork : Effect → Bool
  | .docker .serverVersion => true
  | .publishImages => true
  | _ => false

/-- The common command data and the results of the calls `runImagesPublish`
makes into other packages. -/
structure World where
  /-- Flag `*commonCmdData.TmpDir`. -/
  TmpDir : String
  /-- Flag `*commonCmdData.HomeDir`. -/
  HomeDir : String
  /-- Flag `*commonCmdData.InsecureRepo`. -/
  InsecureRepo : Bool
  /-- Flag `*commonCmdData.DockerConfig`. -/
  DockerConfig : String
  /-- Flag `*commonCmdData.SSHKeys`. -/
  SSHKeys : List String
  /-- Go `werf.Init(tmpDir, homeDir)`. -/
  werfInit : String → String → Option String
  /-- Go `lock.Init()`. -/
  lockInit : Option String
  /-- Go `true_git.Init(...)`. -/
  trueGitInit : Option String
  /-- Go `docker_registry.Init(Options{AllowInsecureRepo: ...})`. -/
  dockerRegistryInit : Bool → Option String
  /-- What `docker.Init` calls. -/
  dockerWorld : Docker.World
  /-- Go `common.GetProjectDir(commonCmdData)`. -/
  getProjectDir : Except String String
  /-- Go `common.GetWerfConfig(projectDir)`. -/
  getWerfConfig : String → Except String WerfConfig
  /-- Go `logging.ImageLogName(name, isArtifact)`. -/
  ImageLogName : String → Bool → String
  /-- Go `tmp_manager.CreateProjectDir()`. -/
  createProjectDir : Except String String
  /-- Go `common.GetStagesRepo(commonCmdData)`; the value is discarded. -/
  getStagesRepo : Option String
  /-- Go `common.GetImagesRepo(projectName, commonCmdData)`. -/
  getImagesRepo : String → Except String String
  /-- Go `common.GetTagOptions(commonCmdData, ...)`. -/
  getTagOptions : Except String String
  /-- Go `ssh_agent.Init(keys)`. -/
  sshAgentInit : List String → Option String
  /-- Go `ssh_agent.Terminate()`. -/
  sshAgentTerminate : Option String
  /-- Go `build.NewConveyor(werfConfig, imagesToProcess, projectDir, projectTmpDir,
  ssh_agent.SSHAuthSock)` followed by `c.PublishImages(imagesRepo, opts)`, with
  arguments images, project dir, project tmp dir, images repo and tag options. -/
  publishImages : List String → String → String → String → String → Option String

/-- Lines 66-84 of `runImagesPublish`: the five initialisations. -/
def initAll (w : World) : List Effect × Option String :=
  match w.werfInit w.TmpDir w.HomeDir with
  | some err => ([.werfInit], some ("initialization error: " ++ err))
  | none =>
    match w.lockInit with
    | some err => ([.werfInit, .lockInit], some err)
    | none =>
      match w.trueGitInit with
      | some err => ([.werfInit, .lockInit, .trueGitInit], some err)
      | none =>
        match w.dockerRegistryInit w.InsecureRepo with
        | some err => ([.werfInit, .lockInit, .trueGitInit, .dockerRegistryInit], some err)
        | none =>
          match Docker.Init w.dockerWorld w.DockerConfig with
          | (t, some err) =>
            ([.werfInit, .lockInit, .trueGitInit, .dockerRegistryInit]
              ++ t.map Effect.docker, some err)
          | (t, none) =>
            ([.werfInit, .lockInit, .trueGitInit, .dockerRegistryInit]
              ++ t.map Effect.docker, none)

/-- Lines 86-96 of `runImagesPublish`: the project dir and the configuration. -/
def loadConfig (w : World) : List Effect × Except String (String × WerfConfig) :=
  match w.getProjectDir with
  | .error err => ([.getProjectDir], .error ("getting project dir failed: " ++ err))
  | .ok projectDir =>
    match w.getWerfConfig projectDir with
    | .error err =>
      ([.getProjectDir, .processLogProjectDir, .getWerfConfig],
        .error ("bad config: " ++ err))
    | .ok werfConfig =>
      ([.getProjectDir, .processLogProjectDir, .getWerfConfig], .ok (projectDir, werfConfig))

/-- Lines 98-102 of `runImagesPublish`: the loop over the requested names. -/
def checkImages (w : World) (werfConfig : WerfConfig) : List String → Option String
  | [] => none
  | imageToProcess :: rest =>
    if !werfConfig.HasImage imageToProcess then
      some ("specified image " ++ w.ImageLogName imageToProcess false
        ++ " is not defined in werf.yaml")
    else checkImages w werfConfig rest

/-- Lines 137-145 of `runImagesPublish`, run after `ssh_agent.Init` succeeded,
followed by the deferred function of lines 130-135. -/
def publishWithAgent (w : World) (imagesToProcess : List String)
    (projectDir projectTmpDir imagesRepo tagOpts : String) : List Effect × Option String :=
  let result := w.publishImages imagesToProcess projectDir projectTmpDir imagesRepo tagOpts
  let deferred :=
    match w.sshAgentTerminate with
    | some err =>
      [Effect.sshAgentTerminate,
        Effect.logError ("WARNING: ssh agent termination failed: " ++ err ++ "\n")]
    | none => [Effect.sshAgentTerminate]
  ([Effect.newConveyor, Effect.publishImages] ++ deferred, result)

/-- Lines 112-145 of `runImagesPublish`, run after
`tmp_manager.CreateProjectDir` succeeded; the deferred `ReleaseProjectDir` of
line 110 is added by the caller. -/
def publishInProjectDir (w : World) (imagesToProcess : List String)
    (projectDir projectName projectTmpDir : String) : List Effect × Option String :=
  match w.getStagesRepo with
  | some err => ([.getStagesRepo], some err)
  | none =>
    match w.getImagesRepo projectName with
    | .error err => ([.getStagesRepo, .getImagesRepo], some err)
    | .ok imagesRepo =>
      match w.getTagOptions with
      | .error err => ([.getStagesRepo, .getImagesRepo, .getTagOptions], some err)
      | .ok tagOpts =>
        match w.sshAgentInit w.SSHKeys with
        | some err =>
          ([.getStagesRepo, .getImagesRepo, .getTagOptions, .sshAgentInit],
            some ("cannot initialize ssh agent: " ++ err))
        | none =>
          let (t, r) :=
            publishWithAgent w imagesToProcess projectDir projectTmpDir imagesRepo tagOpts
          ([.getStagesRepo, .getImagesRepo, .getTagOptions, .sshAgentInit] ++ t, r)

/-- Lines 104-145 of `runImagesPublish`: the project tmp dir, the work inside
it, and the deferred release of the dir. -/
def publishSession (w : World) (imagesToProcess : List String) (projectDir : String)
    (werfConfig : WerfConfig) : List Effect × Option String :=
  let projectName := werfConfig.Project
  match w.createProjectDir with
  | .error err => ([.createProjectDir], some ("getting project tmp dir failed: " ++ err))
  | .ok projectTmpDir =>
    let (t, r) := publishInProjectDir w imagesToProcess projectDir projectName projectTmpDir
    ([Effect.createProjectDir] ++ t ++ [Effect.releaseProjectDir projectTmpDir], r)

/-- Go `runImagesPublish`: the calls made, in order, and the error returned. -/
def runImagesPublish (w : World) (imagesToProcess : List String) :
    List Effect × Option String :=
  match initAll w with
  | (t1, some err) => (t1, some err)
  | (t1, none) =>
    match loadConfig w with
    | (t2, .error err) => (t1 ++ t2, some err)
    | (t2, .ok (projectDir, werfConfig)) =>
      match checkImages w werfConfig imagesToProcess with
      | some err => (t1 ++ t2, some err)
      | none =>
        let (t3, r) := publishSession w imagesToProcess projectDir werfConfig
        (t1 ++ t2 ++ t3, r)

/-- A docker environment in which every call succeeds. -/
def okDocker : Docker.World where
  setenv := fun _ _ => none
  newDockerCli := none
  cliInit := none
  serverVersion := ("1.39", none)
  newClientWithOpts := fun _ => none

/-- A world in which every call of `runImagesPublish` succeeds and `werf.yaml`
declares the images named in `declared`. -/
def okWorld (declared : List String) : World where
  TmpDir := ""
  HomeDir := ""
  InsecureRepo := false
  DockerConfig := ""
  SSHKeys := []
  werfInit := fun _ _ => none
  lockInit := none
  trueGitInit := none
  dockerRegistryInit := fun _ => none
  dockerWorld := okDocker
  getProjectDir := .ok "/project"
  getWerfConfig := fun _ => .ok { Project := "demo", HasImage := fun n => declared.contains n }
  ImageLogName := fun name _ => name
  createProjectDir := .ok "/tmp/werf-project"
  getStagesRepo := none
  getImagesRepo := fun _ => .ok "registry.example.com/demo"
  getTagOptions := .ok "git-branch:master"
  sshAgentInit := fun _ => none
  sshAgentTerminate := none
  publishImages := fun _ _ _ _ _ => none

/-- The calls of lines 66-96: initialisation and configuration loading. -/
def Effect.isSetup : Effect → Bool
  | .werfInit | .lockInit | .trueGitInit | .dockerRegistryInit | .docker _
  | .getProjectDir | .processLogProjectDir | .getWerfConfig => true
  | _ => false

/-- The world of `okWorld declared` in which the push fails and so does the
termination of the SSH agent. -/
def failingWorld (declared : List String) : World :=
  { okWorld declared with
    sshAgentTerminate := some "agent is gone"
    publishImages := fun _ _ _ _ _ => some "push failed" }

end Publish

/-! ## pkg/config: the ansible node -/

namespace Config

/-- The YAML document a node was read from, as `RawDimg.Doc` points to it. -/
structure Doc where
  RenderFilePath : String
  Line : Nat
deriving DecidableEq, Repr

/-- What `raw_ansible.go` uses of `RawDimg`: its document. -/
structure RawDimg where
  Dimg : String
  Doc : Doc
deriving DecidableEq, Repr

/-- A task as read from YAML; its conversion is a parameter. -/
structure RawAnsibleTask where
  Block : String
deriving DecidableEq, Repr

/-- The `RawAnsible` struct.  `RawDimg` is a pointer, `none` for `nil`;
`UnsupportedAttributes` is the inline map of the keys no field takes. -/
structure RawAnsible where
  BeforeInstall : List RawAnsibleTask
  Install : List RawAnsibleTask
  BeforeSetup : List RawAnsibleTask
  Setup : List RawAnsibleTask
  RawDimg : Option RawDimg
  UnsupportedAttributes : List (String × String)
deriving DecidableEq, Repr

/-- An element of `ParentStack`: a pointer to a raw node of some type. -/
inductive Parent where
  | rawDimg (node : RawDimg)
  | rawAnsible (node : RawAnsible)
  | other (typeName : String)
deriving DecidableEq, Repr

/-- The calls `UnmarshalYAML` makes outside itself besides the stack operations. -/
inductive Call where
  /-- Go `unmarshal((*plain)(c))`. -/
  | unmarshal
  /-- Go `CheckOverflow(c.UnsupportedAttributes, c, doc)`. -/
  | checkOverflow (doc : Doc)
deriving DecidableEq, Repr

/-- The decoder callback and `CheckOverflow`. -/
structure Decoder where
  /-- Go `unmarshal((*plain)(c))` for the node `c` and the stack at the call: the
  node as the decoder leaves it, its error, and the stack it leaves. -/
  unmarshal : RawAnsible → List Parent → RawAnsible × Option String × List Parent
  /-- Go `CheckOverflow(unsupportedAttributes, node, doc)`. -/
  checkOverflow : List (String × String) → RawAnsible → Doc → Option String

/-- What a call of `UnmarshalYAML` leaves behind. -/
structure Unmarshalled where
  /-- The receiver `c` after the call. -/
  node : RawAnsible
  /-- Go `ParentStack` after the call. -/
  stack : List Parent
  /-- The error returned, or the panic. -/
  outcome : Outcome
  /-- The calls made, in order. -/
  calls : List Call
deriving DecidableEq, Repr

/-- Go `RawAnsible.UnmarshalYAML` on the receiver `c` with `ParentStack = stack`
(top first).  The decoder leaves the field tagged `yaml:"-"` as it was;
`c.RawDimg.Doc` on a nil `RawDimg` is a nil pointer dereference. -/
def UnmarshalYAML (d : Decoder) (c : RawAnsible) (stack : List Parent) : Unmarshalled :=
  let c :=
    match stack.head? with
    | some (.rawDimg parent) => { c with RawDimg := some parent }
    | _ => c
  let stack := Parent.rawAnsible c :: stack
  let (decoded, err, stack) := d.unmarshal c stack
  let c := { decoded with RawDimg := c.RawDimg }
  let stack := stack.tail
  match err with
  | some err => ⟨c, stack, .returned (some err), [.unmarshal]⟩
  | none =>
    match c.RawDimg with
    | none => ⟨c, stack, .panic "nil pointer dereference", [.unmarshal]⟩
    | some rawDimg =>
      match d.checkOverflow c.UnsupportedAttributes c rawDimg.Doc with
      | some err =>
        ⟨c, stack, .returned (some err), [.unmarshal, .checkOverflow rawDimg.Doc]⟩
      | none => ⟨c, stack, .returned none, [.unmarshal, .checkOverflow rawDimg.Doc]⟩

/-- A converted task. -/
structure AnsibleTask where
  Config : String
deriving DecidableEq, Repr

/-- The `Ansible` directive; `Raw` is a pointer, `none` for `nil`. -/
structure Ansible where
  BeforeInstall : List AnsibleTask
  Install : List AnsibleTask
  BeforeSetup : List AnsibleTask
  Setup : List AnsibleTask
  Raw : Option RawAnsible
deriving DecidableEq, Repr

/-- The two methods `ToDirective` calls on other types. -/
structure Directives where
  /-- Go `RawAnsibleTask.ToDirective`. -/
  taskToDirective : RawAnsibleTask → Except String AnsibleTask
  /-- Go `Ansible.Validate`. -/
  validate : Ansible → Option String

/-- One `for ind := range tasks` loop of `ToDirective`, appending to `acc`:
the tasks whose `ToDirective` was called, in order, and the list built or the
error that ended the loop. -/
def convertTasks (d : Directives) :
    List RawAnsibleTask → List AnsibleTask → List RawAnsibleTask × Except String (List AnsibleTask)
  | [], acc => ([], .ok acc)
  | task :: rest, acc =>
    match d.taskToDirective task with
    | .error err => ([task], .error err)
    | .ok ansibleTask =>
      let (called, r) := convertTasks d rest (acc ++ [ansibleTask])
      (task :: called, r)

/-- Go `RawAnsible.ValidateDirective`. -/
def ValidateDirective (d : Directives) (ansible : Ansible) : Option String :=
  match d.validate ansible with
  | some err => some err
  | none => none

/-- Go `RawAnsible.ToDirective`: the tasks whose `ToDirective` was called, in
order, and the pair `(ansible, err)` returned. -/
def ToDirective (d : Directives) (c : RawAnsible) :
    List RawAnsibleTask × Option Ansible × Option String :=
  match convertTasks d c.BeforeInstall [] with
  | (k1, .error err) => (k1, none, some err)
  | (k1, .ok beforeInstall) =>
    match convertTasks d c.Install [] with
    | (k2, .error err) => (k1 ++ k2, none, some err)
    | (k2, .ok install) =>
      match convertTasks d c.BeforeSetup [] with
      | (k3, .error err) => (k1 ++ k2 ++ k3, none, some err)
      | (k3, .ok beforeSetup) =>
        match convertTasks d c.Setup [] with
        | (k4, .error err) => (k1 ++ k2 ++ k3 ++ k4, none, some err)
        | (k4, .ok setup) =>
          let ansible : Ansible :=
            { BeforeInstall := beforeInstall, Install := install,
              BeforeSetup := beforeSetup, Setup := setup, Raw := some c }
          match ValidateDirective d ansible with
          | some err => (k1 ++ k2 ++ k3 ++ k4, none, some err)
          | none => (k1 ++ k2 ++ k3 ++ k4, some ansible, none)

/-- A decoder that reads two install tasks and one unknown key `shell`, and a
`CheckOverflow` that rejects any unknown key. -/
def strictDecoder : Decoder where
  unmarshal := fun c stack =>
    ({ c with Install := [⟨"apt"⟩, ⟨"copy"⟩], UnsupportedAttributes := [("shell", "ls")] },
      none, stack)
  checkOverflow := fun attrs _ doc =>
    if attrs.isEmpty then none
    else some ("unsupported attributes in " ++ doc.RenderFilePath)

/-- A task conversion that fails on the task `bad`, and a validation that
accepts everything. -/
def demoDirectives : Directives where
  taskToDirective := fun task =>
    if task.Block = "bad" then .error "bad task" else .ok ⟨task.Block⟩
  validate := fun _ => none

end Config

/-! ## Theorems -/

namespace CiEnv

/-! ### Script lines -/

theorem hasPrefix_nil_left (pre : String) (c : Char) (cs : List Char)
    (h : pre.data = c :: cs) : hasPrefix "" pre = false := by
  simp [hasPrefix, h, List.isPrefixOf]

theorem isPrefixOf_append_of_clash (p q r : List Char) (h : prefixClash p q = true) :
    p.isPrefixOf (q ++ r) = false := by
  induction p generalizing q with
  | nil => simp [prefixClash] at h
  | cons a p ih =>
    cases q with
    | nil => simp [prefixClash] at h
    | cons b q =>
      simp only [prefixClash, Bool.or_eq_true, bne_iff_ne, ne_eq] at h
      simp only [List.cons_append, List.isPrefixOf, Bool.and_eq_false_imp, beq_iff_eq]
      intro hab
      rcases h with h | h
      · exact absurd hab h
      · exact ih q h

theorem hasPrefix_append_of_clash (pre q r : String)
    (h : prefixClash pre.data q.data = true) : hasPrefix (q ++ r) pre = false := by
  simp only [hasPrefix, String.data_append]
  exact isPrefixOf_append_of_clash _ _ _ h

theorem exportsVar_append (key : String) (xs ys : List String) :
    exportsVar key (xs ++ ys) = (exportsVar key xs || exportsVar key ys) := by
  simp [exportsVar, List.any_append]

theorem exportsVar_nil (key : String) : exportsVar key [] = false := by
  simp [exportsVar]

theorem exportsVar_printHeader (key : String) (cmd : CmdData) (header : String)
    (withNewLine : Bool) : exportsVar key (printHeader cmd header withNewLine) = false := by
  cases withNewLine <;> cases hv : cmd.Verbose <;>
    simp [printHeader, exportsVar, hasPrefix, hv, String.data_append, List.isPrefixOf]

theorem exportsVar_printExportCommand_clash (key : String) (cmd : CmdData)
    (key2 value : String)
    (h : prefixClash ("export " ++ key ++ "=").data ("export " ++ key2 ++ "=").data = true) :
    exportsVar key (printExportCommand cmd key2 value) = false := by
  have hline : hasPrefix ("export " ++ key2 ++ "=\"" ++ value ++ "\"")
      ("export " ++ key ++ "=") = false := by
    have := hasPrefix_append_of_clash ("export " ++ key ++ "=") ("export " ++ key2 ++ "=")
      ("\"" ++ value ++ "\"") h
    simpa [String.append_assoc] using this
  by_cases hval : value = "" <;> cases hv : cmd.Verbose <;>
    simp [printExportCommand, exportsVar, hv, hval, hline] <;>
    simp [hasPrefix, String.data_append, List.isPrefixOf]

theorem exportsVar_printExportCommand_empty (key : String) (cmd : CmdData) (key2 : String) :
    exportsVar key (printExportCommand cmd key2 "") = false := by
  cases hv : cmd.Verbose <;>
    simp [printExportCommand, exportsVar, hv, hasPrefix, String.data_append, List.isPrefixOf]

theorem mem_printExportCommand (cmd : CmdData) (key value : String) (h : value ≠ "") :
    "export " ++ key ++ "=\"" ++ value ++ "\"" ∈ printExportCommand cmd key value := by
  simp [printExportCommand, h]

theorem exportsVar_printExportCommand_self (cmd : CmdData) (key value : String)
    (h : value ≠ "") : exportsVar key (printExportCommand cmd key value) = true := by
  have : hasPrefix ("export " ++ key ++ "=\"" ++ value ++ "\"") ("export " ++ key ++ "=")
      = true := by
    simp [hasPrefix, String.data_append, List.isPrefixOf_iff_prefix]
  simp [printExportCommand, exportsVar, h, this]

theorem exportsVar_gitlabTagging_tag (w : World) (cmd : CmdData) (tag branch : String) :
    exportsVar "WERF_TAG_GIT_TAG" (gitlabTagging w cmd tag branch)
      = (decide (tag ≠ "") && decide (w.DockerTag tag ≠ "")) := by
  by_cases ht : tag = "" <;> by_cases hb : branch = "" <;>
    by_cases hs : w.DockerTag tag = "" <;>
    simp (disch := first | assumption | decide) [gitlabTagging, exportsVar_append, exportsVar_printHeader,
      exportsVar_nil, exportsVar_printExportCommand_clash, exportsVar_printExportCommand_self,
      exportsVar_printExportCommand_empty, ht, hb, hs]

theorem exportsVar_gitlabTagging_branch (w : World) (cmd : CmdData) (tag branch : String) :
    exportsVar "WERF_TAG_GIT_BRANCH" (gitlabTagging w cmd tag branch)
      = (decide (branch ≠ "") && decide (w.DockerTag branch ≠ "")) := by
  by_cases ht : tag = "" <;> by_cases hb : branch = "" <;>
    by_cases hs : w.DockerTag branch = "" <;>
    simp (disch := first | assumption | decide) [gitlabTagging, exportsVar_append, exportsVar_printHeader,
      exportsVar_nil, exportsVar_printExportCommand_clash, exportsVar_printExportCommand_self,
      exportsVar_printExportCommand_empty, ht, hb, hs]

/-- Outside the TAGGING section `generateGitlabEnvs` sets neither tag variable. -/
theorem exportsVar_generateGitlabEnvs (w : World) (cmd : CmdData)
    (dockerConfig imagesRepo key : String)
    (hsetup : gitlabSetup w = .ok (dockerConfig, imagesRepo))
    (hkey : key = "WERF_TAG_GIT_TAG" ∨ key = "WERF_TAG_GIT_BRANCH") :
    exportsVar key (generateGitlabEnvs w cmd).1
      = exportsVar key
          (gitlabTagging w cmd (gitlabTagFacts w.getenv).1 (gitlabTagFacts w.getenv).2) := by
  unfold generateGitlabEnvs
  rw [hsetup]
  rcases hf : gitlabTagFacts w.getenv with ⟨tag, branch⟩
  rcases hkey with rfl | rfl <;> cases hc : getCleanupConfig w <;>
    (simp only []; try split_ifs) <;>
    simp (disch := decide) [exportsVar_append, exportsVar_printHeader,
      exportsVar_printExportCommand_clash]

theorem mem_generateGitlabEnvs_of_tagging (w : World) (cmd : CmdData)
    (dockerConfig imagesRepo line : String)
    (hsetup : gitlabSetup w = .ok (dockerConfig, imagesRepo))
    (hline : line ∈
      gitlabTagging w cmd (gitlabTagFacts w.getenv).1 (gitlabTagFacts w.getenv).2) :
    line ∈ (generateGitlabEnvs w cmd).1 := by
  unfold generateGitlabEnvs
  rw [hsetup]
  rcases hf : gitlabTagFacts w.getenv with ⟨tag, branch⟩
  rw [hf] at hline
  cases hc : getCleanupConfig w <;> (simp only []; try split_ifs) <;>
    simp only [List.mem_append] <;> tauto

theorem exportLines_append (key : String) (xs ys : List String) :
    exportLines key (xs ++ ys) = exportLines key xs ++ exportLines key ys := by
  simp [exportLines, List.filter_append]

theorem exportLines_eq_nil (key : String) (xs : List String)
    (h : exportsVar key xs = false) : exportLines key xs = [] := by
  simp only [exportLines, List.filter_eq_nil_iff]
  intro line hline hp
  have : exportsVar key xs = true := List.any_eq_true.2 ⟨line, hline, hp⟩
  rw [h] at this
  exact absurd this (by decide)

theorem exportLines_printExportCommand_self (cmd : CmdData) (key value : String)
    (h : value ≠ "") :
    exportLines key (printExportCommand cmd key value)
      = ["export " ++ key ++ "=\"" ++ value ++ "\""] := by
  have hline : hasPrefix ("export " ++ key ++ "=\"" ++ value ++ "\"") ("export " ++ key ++ "=")
      = true := by
    simp [hasPrefix, String.data_append, List.isPrefixOf_iff_prefix]
  have hecho : hasPrefix ("echo '" ++ ("export " ++ key ++ "=\"" ++ value ++ "\"") ++ "'")
      ("export " ++ key ++ "=") = false := by
    simp [hasPrefix, String.data_append, List.isPrefixOf]
  cases hv : cmd.Verbose <;>
    simp [printExportCommand, exportLines, hv, h, hline, hecho, List.filter_cons]

/-- Outside the TAGGING section `generateGitlabEnvs` writes no line that sets
a tag variable. -/
theorem exportLines_generateGitlabEnvs (w : World) (cmd : CmdData)
    (dockerConfig imagesRepo key : String)
    (hsetup : gitlabSetup w = .ok (dockerConfig, imagesRepo))
    (hkey : key = "WERF_TAG_GIT_TAG" ∨ key = "WERF_TAG_GIT_BRANCH") :
    exportLines key (generateGitlabEnvs w cmd).1
      = exportLines key
          (gitlabTagging w cmd (gitlabTagFacts w.getenv).1 (gitlabTagFacts w.getenv).2) := by
  have hH : ∀ (header : String) (nl : Bool), exportLines key (printHeader cmd header nl) = [] :=
    fun header nl => exportLines_eq_nil _ _ (exportsVar_printHeader key cmd header nl)
  have hE : ∀ (key2 value : String),
      prefixClash ("export " ++ key ++ "=").data ("export " ++ key2 ++ "=").data = true →
      exportLines key (printExportCommand cmd key2 value) = [] :=
    fun key2 value h =>
      exportLines_eq_nil _ _ (exportsVar_printExportCommand_clash key cmd key2 value h)
  unfold generateGitlabEnvs
  rw [hsetup]
  rcases hf : gitlabTagFacts w.getenv with ⟨tag, branch⟩
  rcases hkey with rfl | rfl <;> cases hc : getCleanupConfig w <;>
    (simp only []; try split_ifs) <;>
    simp only [exportLines_append, hH] <;>
    (repeat rw [hE _ _ (by decide)]) <;>
    simp

theorem exportLines_gitlabTagging_tag (w : World) (cmd : CmdData) (tag : String)
    (ht : tag ≠ "") (hs : w.DockerTag tag ≠ "") :
    exportLines "WERF_TAG_GIT_TAG" (gitlabTagging w cmd tag "")
      = ["export WERF_TAG_GIT_TAG=\"" ++ w.DockerTag tag ++ "\""] := by
  have hlit : "export WERF_TAG_GIT_TAG=\"" = "export " ++ "WERF_TAG_GIT_TAG" ++ "=\"" := by
    decide
  rw [hlit]
  simp [gitlabTagging, ht, exportLines_append,
    exportLines_eq_nil _ _ (exportsVar_printHeader "WERF_TAG_GIT_TAG" cmd "TAGGING" true),
    exportLines_printExportCommand_self cmd "WERF_TAG_GIT_TAG" _ hs]

theorem exportLines_gitlabTagging_branch (w : World) (cmd : CmdData) (branch : String)
    (hb : branch ≠ "") (hs : w.DockerTag branch ≠ "") :
    exportLines "WERF_TAG_GIT_BRANCH" (gitlabTagging w cmd "" branch)
      = ["export WERF_TAG_GIT_BRANCH=\"" ++ w.DockerTag branch ++ "\""] := by
  have hlit :
      "export WERF_TAG_GIT_BRANCH=\"" = "export " ++ "WERF_TAG_GIT_BRANCH" ++ "=\"" := by
    decide
  rw [hlit]
  simp [gitlabTagging, hb, exportLines_append,
    exportLines_eq_nil _ _ (exportsVar_printHeader "WERF_TAG_GIT_BRANCH" cmd "TAGGING" true),
    exportLines_printExportCommand_self cmd "WERF_TAG_GIT_BRANCH" _ hs]

theorem gitlabTagFacts_not_both (env : String → String) :
    (gitlabTagFacts env).1 = "" ∨ (gitlabTagFacts env).2 = "" := by
  unfold gitlabTagFacts
  split_ifs <;> simp

theorem generateGitlabEnvs_not_both (w : World) (cmd : CmdData) :
    (exportsVar "WERF_TAG_GIT_TAG" (generateGitlabEnvs w cmd).1
      && exportsVar "WERF_TAG_GIT_BRANCH" (generateGitlabEnvs w cmd).1) = false := by
  cases hsetup : gitlabSetup w with
  | error err => simp [generateGitlabEnvs, hsetup, exportsVar_nil]
  | ok p =>
    obtain ⟨dockerConfig, imagesRepo⟩ := p
    rw [exportsVar_generateGitlabEnvs w cmd dockerConfig imagesRepo _ hsetup (Or.inl rfl),
      exportsVar_generateGitlabEnvs w cmd dockerConfig imagesRepo _ hsetup (Or.inr rfl),
      exportsVar_gitlabTagging_tag, exportsVar_gitlabTagging_branch]
    rcases gitlabTagFacts_not_both w.getenv with h | h <;> simp [h]

/-- C1: provided the docker-config, registry and login steps before it succeed
and the slug of a non-empty name is non-empty, whenever a tag variable is
non-empty (also when a branch variable is set) the one and only line of
`generateGitlabEnvs` that sets `WERF_TAG_GIT_TAG` is
`export WERF_TAG_GIT_TAG="<slug>"` for the tag (`CI_BUILD_TAG` first, else
`CI_COMMIT_TAG`), and no line sets `WERF_TAG_GIT_BRANCH`; with no tag variable
the one and only line that sets `WERF_TAG_GIT_BRANCH` is
`export WERF_TAG_GIT_BRANCH="<slug>"` for the branch (`CI_BUILD_REF_NAME`
first, else `CI_COMMIT_REF_NAME`), and no line sets `WERF_TAG_GIT_TAG`.  In no
world at all are both variables set. -/
theorem generateGitlabEnvs_tag_or_branch (w : World) (cmd : CmdData)
    (dockerConfig imagesRepo : String)
    (hsetup : gitlabSetup w = .ok (dockerConfig, imagesRepo))
    (hslug : ∀ s, s ≠ "" → w.DockerTag s ≠ "") :
    (w.getenv "CI_BUILD_TAG" ≠ "" →
      "export WERF_TAG_GIT_TAG=\"" ++ w.DockerTag (w.getenv "CI_BUILD_TAG") ++ "\""
          ∈ (generateGitlabEnvs w cmd).1
        ∧ exportsVar "WERF_TAG_GIT_BRANCH" (generateGitlabEnvs w cmd).1 = false
        ∧ exportLines "WERF_TAG_GIT_TAG" (generateGitlabEnvs w cmd).1
            = ["export WERF_TAG_GIT_TAG=\"" ++ w.DockerTag (w.getenv "CI_BUILD_TAG") ++ "\""]
        ∧ exportLines "WERF_TAG_GIT_BRANCH" (generateGitlabEnvs w cmd).1 = [])
    ∧ (w.getenv "CI_BUILD_TAG" = "" → w.getenv "CI_COMMIT_TAG" ≠ "" →
      "export WERF_TAG_GIT_TAG=\"" ++ w.DockerTag (w.getenv "CI_COMMIT_TAG") ++ "\""
          ∈ (generateGitlabEnvs w cmd).1
        ∧ exportsVar "WERF_TAG_GIT_BRANCH" (generateGitlabEnvs w cmd).1 = false
        ∧ exportLines "WERF_TAG_GIT_TAG" (generateGitlabEnvs w cmd).1
            = ["export WERF_TAG_GIT_TAG=\"" ++ w.DockerTag (w.getenv "CI_COMMIT_TAG") ++ "\""]
        ∧ exportLines "WERF_TAG_GIT_BRANCH" (generateGitlabEnvs w cmd).1 = [])
    ∧ (w.getenv "CI_BUILD_TAG" = "" → w.getenv "CI_COMMIT_TAG" = "" →
        w.getenv "CI_BUILD_REF_NAME" ≠ "" →
      "export WERF_TAG_GIT_BRANCH=\"" ++ w.DockerTag (w.getenv "CI_BUILD_REF_NAME") ++ "\""
          ∈ (generateGitlabEnvs w cmd).1
        ∧ exportsVar "WERF_TAG_GIT_TAG" (generateGitlabEnvs w cmd).1 = false
        ∧ exportLines "WERF_TAG_GIT_BRANCH" (generateGitlabEnvs w cmd).1
            = ["export WERF_TAG_GIT_BRANCH=\""
                ++ w.DockerTag (w.getenv "CI_BUILD_REF_NAME") ++ "\""]
        ∧ exportLines "WERF_TAG_GIT_TAG" (generateGitlabEnvs w cmd).1 = [])
    ∧ (w.getenv "CI_BUILD_TAG" = "" → w.getenv "CI_COMMIT_TAG" = "" →
        w.getenv "CI_BUILD_REF_NAME" = "" → w.getenv "CI_COMMIT_REF_NAME" ≠ "" →
      "export WERF_TAG_GIT_BRANCH=\"" ++ w.DockerTag (w.getenv "CI_COMMIT_REF_NAME") ++ "\""
          ∈ (generateGitlabEnvs w cmd).1
        ∧ exportsVar "WERF_TAG_GIT_TAG" (generateGitlabEnvs w cmd).1 = false
        ∧ exportLines "WERF_TAG_GIT_BRANCH" (generateGitlabEnvs w cmd).1
            = ["export WERF_TAG_GIT_BRANCH=\""
                ++ w.DockerTag (w.getenv "CI_COMMIT_REF_NAME") ++ "\""]
        ∧ exportLines "WERF_TAG_GIT_TAG" (generateGitlabEnvs w cmd).1 = [])
    ∧ (∀ (w2 : World) (cmd2 : CmdData),
        (exportsVar "WERF_TAG_GIT_TAG" (generateGitlabEnvs w2 cmd2).1
          && exportsVar "WERF_TAG_GIT_BRANCH" (generateGitlabEnvs w2 cmd2).1) = false) := by
  have htagLit : "export WERF_TAG_GIT_TAG=\"" = "export " ++ "WERF_TAG_GIT_TAG" ++ "=\"" := by
    decide
  have hbranchLit :
      "export WERF_TAG_GIT_BRANCH=\"" = "export " ++ "WERF_TAG_GIT_BRANCH" ++ "=\"" := by
    decide
  have hT := exportsVar_generateGitlabEnvs w cmd dockerConfig imagesRepo _ hsetup (Or.inl rfl)
  have hB := exportsVar_generateGitlabEnvs w cmd dockerConfig imagesRepo _ hsetup (Or.inr rfl)
  rw [exportsVar_gitlabTagging_tag] at hT
  rw [exportsVar_gitlabTagging_branch] at hB
  have hLT := exportLines_generateGitlabEnvs w cmd dockerConfig imagesRepo _ hsetup (Or.inl rfl)
  have hLB := exportLines_generateGitlabEnvs w cmd dockerConfig imagesRepo _ hsetup (Or.inr rfl)
  have hmem := mem_generateGitlabEnvs_of_tagging w cmd dockerConfig imagesRepo
  refine ⟨?_, ?_, ?_, ?_, fun w2 cmd2 => generateGitlabEnvs_not_both w2 cmd2⟩
  · intro h1
    have hf : gitlabTagFacts w.getenv = (w.getenv "CI_BUILD_TAG", "") := by
      simp [gitlabTagFacts, h1]
    rw [hf] at hB hLT
    have hB2 : exportsVar "WERF_TAG_GIT_BRANCH" (generateGitlabEnvs w cmd).1 = false := by
      simpa using hB
    refine ⟨?_, hB2, ?_, exportLines_eq_nil _ _ hB2⟩
    · apply hmem _ hsetup
      rw [hf, htagLit]
      simp only [gitlabTagging, List.mem_append]
      exact Or.inl (Or.inr (by simpa [h1] using mem_printExportCommand cmd _ _ (hslug _ h1)))
    · rw [hLT]
      exact exportLines_gitlabTagging_tag w cmd _ h1 (hslug _ h1)
  · intro h1 h2
    have hf : gitlabTagFacts w.getenv = (w.getenv "CI_COMMIT_TAG", "") := by
      simp [gitlabTagFacts, h1, h2]
    rw [hf] at hB hLT
    have hB2 : exportsVar "WERF_TAG_GIT_BRANCH" (generateGitlabEnvs w cmd).1 = false := by
      simpa using hB
    refine ⟨?_, hB2, ?_, exportLines_eq_nil _ _ hB2⟩
    · apply hmem _ hsetup
      rw [hf, htagLit]
      simp only [gitlabTagging, List.mem_append]
      exact Or.inl (Or.inr (by simpa [h2] using mem_printExportCommand cmd _ _ (hslug _ h2)))
    · rw [hLT]
      exact exportLines_gitlabTagging_tag w cmd _ h2 (hslug _ h2)
  · intro h1 h2 h3
    have hf : gitlabTagFacts w.getenv = ("", w.getenv "CI_BUILD_REF_NAME") := by
      simp [gitlabTagFacts, h1, h2, h3]
    rw [hf] at hT hLB
    have hT2 : exportsVar "WERF_TAG_GIT_TAG" (generateGitlabEnvs w cmd).1 = false := by
      simpa using hT
    refine ⟨?_, hT2, ?_, exportLines_eq_nil _ _ hT2⟩
    · apply hmem _ hsetup
      rw [hf, hbranchLit]
      simp only [gitlabTagging, List.mem_append]
      exact Or.inr (by simpa [h3] using mem_printExportCommand cmd _ _ (hslug _ h3))
    · rw [hLB]
      exact exportLines_gitlabTagging_branch w cmd _ h3 (hslug _ h3)
  · intro h1 h2 h3 h4
    have hf : gitlabTagFacts w.getenv = ("", w.getenv "CI_COMMIT_REF_NAME") := by
      simp [gitlabTagFacts, h1, h2, h3, h4]
    rw [hf] at hT hLB
    have hT2 : exportsVar "WERF_TAG_GIT_TAG" (generateGitlabEnvs w cmd).1 = false := by
      simpa using hT
    refine ⟨?_, hT2, ?_, exportLines_eq_nil _ _ hT2⟩
    · apply hmem _ hsetup
      rw [hf, hbranchLit]
      simp only [gitlabTagging, List.mem_append]
      exact Or.inr (by simpa [h4] using mem_printExportCommand cmd _ _ (hslug _ h4))
    · rw [hLB]
      exact exportLines_gitlabTagging_branch w cmd _ h4 (hslug _ h4)

/-- C1 at the job of tag `v1.0`, where `CI_COMMIT_REF_NAME` is set as well,
and at a job where `CI_BUILD_TAG` and `CI_COMMIT_TAG` differ. -/
theorem generateGitlabEnvs_tag_or_branch_witness :
    gitlabSetup (okWorld tagJobEnv) = .ok ("/tmp/werf-docker", "")
    ∧ exportLines "WERF_TAG_GIT_TAG"
        (generateGitlabEnvs (okWorld tagJobEnv) ⟨"tag-or-branch", false⟩).1
      = ["export WERF_TAG_GIT_TAG=\"v1.0\""]
    ∧ exportLines "WERF_TAG_GIT_BRANCH"
        (generateGitlabEnvs (okWorld tagJobEnv) ⟨"tag-or-branch", false⟩).1 = []
    ∧ exportLines "WERF_TAG_GIT_TAG"
        (generateGitlabEnvs (okWorld twoTagsJobEnv) ⟨"tag-or-branch", true⟩).1
      = ["export WERF_TAG_GIT_TAG=\"v2.0\""] :=
  have h := (generateGitlabEnvs_tag_or_branch (okWorld tagJobEnv) ⟨"tag-or-branch", false⟩
    "/tmp/werf-docker" "" rfl (fun _ h => h)).2.1 (by decide) (by decide)
  ⟨rfl, h.2.2.1, h.2.2.2,
    ((generateGitlabEnvs_tag_or_branch (okWorld twoTagsJobEnv) ⟨"tag-or-branch", true⟩
      "/tmp/werf-docker" "" rfl (fun _ h => h)).1 (by decide)).2.2.1⟩

/-- C2: with all of `CI_BUILD_TAG`, `CI_COMMIT_TAG`, `CI_BUILD_REF_NAME` and
`CI_COMMIT_REF_NAME` empty, `generateGitlabEnvs` returns an error in every
world; when the docker-config, registry, login and cleanup-config steps
succeed, that error is the message naming `$CI_COMMIT_TAG` and
`$CI_COMMIT_REF_NAME`, and an error is returned only when all four are empty. -/
theorem generateGitlabEnvs_no_tag_source (w : World) (cmd : CmdData)
    (dockerConfig imagesRepo : String) (cleanupConfig : CleanupConfig)
    (hsetup : gitlabSetup w = .ok (dockerConfig, imagesRepo))
    (hcleanup : getCleanupConfig w = .ok cleanupConfig) :
    ((w.getenv "CI_BUILD_TAG" = "" ∧ w.getenv "CI_COMMIT_TAG" = ""
        ∧ w.getenv "CI_BUILD_REF_NAME" = "" ∧ w.getenv "CI_COMMIT_REF_NAME" = "") →
      (generateGitlabEnvs w cmd).2
        = some ("none of enviroment variables $WERF_TAG_GIT_TAG=$" ++ "CI_COMMIT_TAG"
            ++ " or $WERF_TAG_GIT_BRANCH=$" ++ "CI_COMMIT_REF_NAME" ++ " for '"
            ++ cmd.TaggingStrategy ++ "' strategy are detected"))
    ∧ ((generateGitlabEnvs w cmd).2.isSome = true →
        (w.getenv "CI_BUILD_TAG" = "" ∧ w.getenv "CI_COMMIT_TAG" = ""
          ∧ w.getenv "CI_BUILD_REF_NAME" = "" ∧ w.getenv "CI_COMMIT_REF_NAME" = ""))
    ∧ (∀ (w2 : World) (cmd2 : CmdData),
        (w2.getenv "CI_BUILD_TAG" = "" ∧ w2.getenv "CI_COMMIT_TAG" = ""
          ∧ w2.getenv "CI_BUILD_REF_NAME" = "" ∧ w2.getenv "CI_COMMIT_REF_NAME" = "") →
        (generateGitlabEnvs w2 cmd2).2.isSome = true) := by
  have hlit : "none of enviroment variables $WERF_TAG_GIT_TAG=$" ++ "CI_COMMIT_TAG"
        ++ " or $WERF_TAG_GIT_BRANCH=$" ++ "CI_COMMIT_REF_NAME" ++ " for '"
      = "none of enviroment variables $WERF_TAG_GIT_TAG=$CI_COMMIT_TAG or "
        ++ "$WERF_TAG_GIT_BRANCH=$CI_COMMIT_REF_NAME for '" := by decide
  refine ⟨?_, ?_, ?_⟩
  · rintro ⟨h1, h2, h3, h4⟩
    have hf : gitlabTagFacts w.getenv = ("", "") := by
      simp [gitlabTagFacts, h1, h2, h3, h4]
    rw [hlit]
    simp [generateGitlabEnvs, hsetup, hcleanup, hf]
  · intro herr
    by_contra hne
    have hf : ¬ ((gitlabTagFacts w.getenv).1 = "" ∧ (gitlabTagFacts w.getenv).2 = "") := by
      unfold gitlabTagFacts
      split_ifs with h1 h2 h3 h4 <;> simp_all
    rcases hfacts : gitlabTagFacts w.getenv with ⟨tag, branch⟩
    rw [hfacts] at hf
    simp [generateGitlabEnvs, hsetup, hcleanup, hfacts, hf] at herr
  · rintro w2 cmd2 ⟨h1, h2, h3, h4⟩
    have hf : gitlabTagFacts w2.getenv = ("", "") := by
      simp [gitlabTagFacts, h1, h2, h3, h4]
    unfold generateGitlabEnvs
    cases hs : gitlabSetup w2 with
    | error err => simp
    | ok p =>
      obtain ⟨dc, ir⟩ := p
      cases hc : getCleanupConfig w2 <;> simp [hf]

/-- C2 at a job with no tag and no branch variable, and at the job of tag
`v1.0`, which returns no error. -/
theorem generateGitlabEnvs_no_tag_source_witness :
    (generateGitlabEnvs (okWorld bareJobEnv) ⟨"tag-or-branch", false⟩).2
      = some ("none of enviroment variables $WERF_TAG_GIT_TAG=$CI_COMMIT_TAG or "
          ++ "$WERF_TAG_GIT_BRANCH=$CI_COMMIT_REF_NAME for 'tag-or-branch' strategy "
          ++ "are detected")
    ∧ (generateGitlabEnvs (okWorld tagJobEnv) ⟨"tag-or-branch", false⟩).2 = none :=
  ⟨(generateGitlabEnvs_no_tag_source (okWorld bareJobEnv) ⟨"tag-or-branch", false⟩
      "/tmp/werf-docker" "" ⟨10, 30, 50, 30⟩ rfl rfl).1 ⟨rfl, rfl, rfl, rfl⟩,
    by decide⟩

/-- C7: after `werf.Init`, `lock.Init` and the argument-count check succeed on a
one-element argument list, `runCIEnv` prints the help and fails with
`provided tagging-strategy '<s>' not supported` for every strategy other than
`tag-or-branch` (whatever the CI system), and with
`provided ci system '<x>' not supported` for the strategy `tag-or-branch` and
every CI system other than `gitlab`; on any argument list `generateGitlabEnvs`
is called only for `tag-or-branch` with first argument `gitlab`. -/
theorem runCIEnv_supported (w : World) (cmd : CmdData) (ciSystem : String)
    (hinit : w.werfInit w.TmpDir w.HomeDir = none) (hlock : w.lockInit = none)
    (hcount : w.validateArgumentCount 1 [ciSystem] = none) :
    (cmd.TaggingStrategy ≠ "tag-or-branch" →
      runCIEnv w cmd [ciSystem]
        = ([Event.help], .returned (some ("provided tagging-strategy '"
            ++ cmd.TaggingStrategy ++ "' not supported"))))
    ∧ (cmd.TaggingStrategy = "tag-or-branch" → ciSystem ≠ "gitlab" →
      runCIEnv w cmd [ciSystem]
        = ([Event.help], .returned (some ("provided ci system '"
            ++ ciSystem ++ "' not supported"))))
    ∧ (cmd.TaggingStrategy = "tag-or-branch" → ciSystem = "gitlab" →
      (runCIEnv w cmd [ciSystem]).1.head? = some Event.gitlabEnvs
        ∧ (runCIEnv w cmd [ciSystem]).2 = .returned (generateGitlabEnvs w cmd).2)
    ∧ (∀ args : List String, Event.gitlabEnvs ∈ (runCIEnv w cmd args).1 →
        cmd.TaggingStrategy = "tag-or-branch" ∧ args.head? = some "gitlab") := by
  refine ⟨?_, ?_, ?_, ?_⟩
  · intro hs
    simp [runCIEnv, hinit, hlock, hcount, hs]
  · intro hs hc
    simp [runCIEnv, hinit, hlock, hcount, hs, hc]
  · intro hs hc
    subst hc
    simp only [runCIEnv, hinit, hlock, hcount, hs, if_true]
    rcases generateGitlabEnvs w cmd with ⟨out, err⟩
    cases err <;> simp
  · intro args hmem
    unfold runCIEnv at hmem
    rw [hinit, hlock] at hmem
    simp only at hmem
    cases hv : w.validateArgumentCount 1 args with
    | some err => simp [hv] at hmem
    | none =>
      rw [hv] at hmem
      simp only at hmem
      by_cases hs : cmd.TaggingStrategy = "tag-or-branch"
      · refine ⟨hs, ?_⟩
        rw [if_pos hs] at hmem
        cases args with
        | nil => simp at hmem
        | cons x rest =>
          by_cases hx : x = "gitlab"
          · simp [hx]
          · simp [hx] at hmem
      · simp [hs] at hmem

/-- C7 at the default (empty) strategy, and at an unknown CI system. -/
theorem runCIEnv_supported_witness :
    runCIEnv (okWorld tagJobEnv) ⟨"", false⟩ ["gitlab"]
      = ([Event.help], .returned (some "provided tagging-strategy '' not supported"))
    ∧ runCIEnv (okWorld tagJobEnv) ⟨"tag-or-branch", false⟩ ["jenkins"]
      = ([Event.help], .returned (some "provided ci system 'jenkins' not supported")) :=
  ⟨(runCIEnv_supported (okWorld tagJobEnv) ⟨"", false⟩ "gitlab" rfl rfl rfl).1 (by decide),
    (runCIEnv_supported (okWorld tagJobEnv) ⟨"tag-or-branch", false⟩ "jenkins"
      rfl rfl rfl).2.1 rfl (by decide)⟩

/-- C10: `printExportCommand` writes `export KEY="VALUE"` for a non-empty value
and `# export KEY=""` for the empty one, a line that sets no variable; in
verbose mode that line is followed by `echo '<line>'` and nothing else, and
otherwise it is the only line. -/
theorem printExportCommand_lines (cmd : CmdData) (key value : String) :
    (value ≠ "" → cmd.Verbose = false →
      printExportCommand cmd key value = ["export " ++ key ++ "=\"" ++ value ++ "\""])
    ∧ (value ≠ "" → cmd.Verbose = true →
      printExportCommand cmd key value
        = ["export " ++ key ++ "=\"" ++ value ++ "\"",
           "echo '" ++ ("export " ++ key ++ "=\"" ++ value ++ "\"") ++ "'"])
    ∧ (cmd.Verbose = false →
      printExportCommand cmd key "" = ["# export " ++ key ++ "=\"\""])
    ∧ (cmd.Verbose = true →
      printExportCommand cmd key ""
        = ["# export " ++ key ++ "=\"\"", "echo '" ++ ("# export " ++ key ++ "=\"\"") ++ "'"])
    ∧ (∀ name : String, exportsVar name (printExportCommand cmd key "") = false)
    ∧ (cmd.Verbose = false → (printExportCommand cmd key value).length = 1)
    ∧ (cmd.Verbose = true → ∃ line : String,
        printExportCommand cmd key value = [line, "echo '" ++ line ++ "'"]) := by
  have hempty : "# " ++ ("export " ++ key ++ "=\"" ++ "" ++ "\"")
      = "# export " ++ key ++ "=\"\"" := by
    apply String.ext
    simp [String.data_append]
  refine ⟨?_, ?_, ?_, ?_, ?_, ?_, ?_⟩
  · intro hv hq
    simp [printExportCommand, hv, hq]
  · intro hv hq
    simp [printExportCommand, hv, hq]
  · intro hq
    simp only [printExportCommand, hq, if_true, hempty]
    simp
  · intro hq
    simp only [printExportCommand, hq, if_true, hempty]
    simp
  · intro name
    exact exportsVar_printExportCommand_empty name cmd key
  · intro hq
    simp [printExportCommand, hq]
  · intro hq
    by_cases hv : value = ""
    · exact ⟨"# " ++ ("export " ++ key ++ "=\"" ++ value ++ "\""),
        by simp [printExportCommand, hq, hv]⟩
    · exact ⟨"export " ++ key ++ "=\"" ++ value ++ "\"", by simp [printExportCommand, hq, hv]⟩

end CiEnv

namespace Publish

/-! ### Validation of the requested image names -/

theorem checkImages_eq_none_iff (w : World) (cfg : WerfConfig) (imgs : List String) :
    checkImages w cfg imgs = none ↔ ∀ n ∈ imgs, cfg.HasImage n = true := by
  induction imgs with
  | nil => simp [checkImages]
  | cons n rest ih =>
    by_cases h : cfg.HasImage n = true
    · simp [checkImages, h, ih]
    · simp [checkImages, h]

theorem checkImages_first (w : World) (cfg : WerfConfig) (pre : List String) (n : String)
    (post : List String) (hpre : ∀ m ∈ pre, cfg.HasImage m = true)
    (hn : cfg.HasImage n = false) :
    checkImages w cfg (pre ++ n :: post)
      = some ("specified image " ++ w.ImageLogName n false
          ++ " is not defined in werf.yaml") := by
  induction pre with
  | nil => simp [checkImages, hn]
  | cons m pre ih =>
    have hm : cfg.HasImage m = true := hpre m (by simp)
    simp only [List.cons_append, checkImages, hm, Bool.not_true]
    exact ih (fun x hx => hpre x (by simp [hx]))

theorem checkImages_isSome_iff (w : World) (cfg : WerfConfig) (imgs : List String) :
    (checkImages w cfg imgs).isSome = true ↔ ∃ n ∈ imgs, cfg.HasImage n = false := by
  rw [← Option.ne_none_iff_isSome, Ne, checkImages_eq_none_iff]
  simp

theorem runImagesPublish_of_setup (w : World) (imgs : List String) (t1 t2 : List Effect)
    (projectDir : String) (cfg : WerfConfig)
    (hinit : initAll w = (t1, none)) (hcfg : loadConfig w = (t2, .ok (projectDir, cfg))) :
    runImagesPublish w imgs
      = match checkImages w cfg imgs with
        | some err => (t1 ++ t2, some err)
        | none =>
          (t1 ++ t2 ++ (publishSession w imgs projectDir cfg).1,
            (publishSession w imgs projectDir cfg).2) := by
  simp only [runImagesPublish, hinit, hcfg]

/-- C3: once initialisation and configuration loading have succeeded,
`runImagesPublish` returns `specified image <name> is not defined in werf.yaml`
for the first requested name the configuration does not declare, and goes on
to the publish session when every requested name is declared; the check fails
exactly when some requested name is undeclared, and never on the empty
request. -/
theorem runImagesPublish_validation (w : World) (imgs : List String) (t1 t2 : List Effect)
    (projectDir : String) (cfg : WerfConfig)
    (hinit : initAll w = (t1, none)) (hcfg : loadConfig w = (t2, .ok (projectDir, cfg))) :
    (∀ (pre : List String) (n : String) (post : List String), imgs = pre ++ n :: post →
        (∀ m ∈ pre, cfg.HasImage m = true) → cfg.HasImage n = false →
        runImagesPublish w imgs
          = (t1 ++ t2, some ("specified image " ++ w.ImageLogName n false
              ++ " is not defined in werf.yaml")))
    ∧ ((∀ n ∈ imgs, cfg.HasImage n = true) →
        runImagesPublish w imgs
          = (t1 ++ t2 ++ (publishSession w imgs projectDir cfg).1,
              (publishSession w imgs projectDir cfg).2))
    ∧ ((checkImages w cfg imgs).isSome = true ↔ ∃ n ∈ imgs, cfg.HasImage n = false)
    ∧ runImagesPublish w []
        = (t1 ++ t2 ++ (publishSession w [] projectDir cfg).1,
            (publishSession w [] projectDir cfg).2) := by
  refine ⟨?_, ?_, checkImages_isSome_iff w cfg imgs, ?_⟩
  · rintro pre n post rfl hpre hn
    rw [runImagesPublish_of_setup w _ t1 t2 projectDir cfg hinit hcfg,
      checkImages_first w cfg pre n post hpre hn]
  · intro hall
    rw [runImagesPublish_of_setup w _ t1 t2 projectDir cfg hinit hcfg,
      (checkImages_eq_none_iff w cfg imgs).2 hall]
  · rw [runImagesPublish_of_setup w _ t1 t2 projectDir cfg hinit hcfg]
    rfl

/-- C3 in the world declaring only `web`, for the request `web`, `missing`. -/
theorem runImagesPublish_validation_witness :
    (runImagesPublish (okWorld ["web"]) ["web", "missing"]).2
      = some "specified image missing is not defined in werf.yaml" :=
  congrArg Prod.snd
    ((runImagesPublish_validation (okWorld ["web"]) ["web", "missing"]
        (initAll (okWorld ["web"])).1 (loadConfig (okWorld ["web"])).1 "/project"
        { Project := "demo", HasImage := fun n => ["web"].contains n } rfl rfl).1
      ["web"] "missing" [] rfl (by intro m hm; simp at hm; subst hm; rfl) rfl)

/-! ### What precedes the unknown-image error -/

theorem initAll_isSetup (w : World) : ∀ e ∈ (initAll w).1, e.isSetup = true := by
  cases h1 : w.werfInit w.TmpDir w.HomeDir <;> cases h2 : w.lockInit <;>
    cases h3 : w.trueGitInit <;> cases h4 : w.dockerRegistryInit w.InsecureRepo <;>
    rcases h5 : Docker.Init w.dockerWorld w.DockerConfig with ⟨t, _ | err⟩ <;>
    simp [initAll, Effect.isSetup, h1, h2, h3, h4, h5]

theorem loadConfig_isSetup (w : World) : ∀ e ∈ (loadConfig w).1, e.isSetup = true := by
  cases h1 : w.getProjectDir with
  | error err => simp [loadConfig, h1, Effect.isSetup]
  | ok projectDir =>
    cases h2 : w.getWerfConfig projectDir <;> simp [loadConfig, h1, h2, Effect.isSetup]

theorem isNetwork_of_isSetup (e : Effect) (hs : e.isSetup = true) (hn : e.isNetwork = true) :
    e = Effect.docker Docker.Effect.serverVersion := by
  cases e <;> simp [Effect.isSetup, Effect.isNetwork] at hs hn ⊢
  case docker d => cases d <;> simp [Effect.isNetwork] at hn ⊢

/-- A successful `docker.Init` has asked the daemon for its version. -/
theorem dockerInit_serverVersion (w : Docker.World) (dir : String) (t : List Docker.Effect)
    (h : Docker.Init w dir = (t, none)) : Docker.Effect.serverVersion ∈ t := by
  unfold Docker.Init at h
  cases h1 : w.setenv "DOCKER_CONFIG" dir with
  | some err => simp [h1] at h
  | none =>
    rcases h2 : Docker.setDockerClient w with ⟨t2, _ | err⟩
    · rcases h3 : w.serverVersion with ⟨v, e⟩
      cases h4 : w.newClientWithOpts v with
      | none =>
        simp [h1, h2, Docker.setDockerApiClient, h3, h4] at h
        rw [← h]
        simp
      | some err => simp [h1, h2, Docker.setDockerApiClient, h3, h4] at h
    · simp [h1, h2] at h

/-- A successful initialisation has asked the daemon for its version. -/
theorem initAll_serverVersion (w : World) (t1 : List Effect) (h : initAll w = (t1, none)) :
    Effect.docker Docker.Effect.serverVersion ∈ t1 := by
  unfold initAll at h
  cases h1 : w.werfInit w.TmpDir w.HomeDir with
  | some err => simp [h1] at h
  | none =>
    cases h2 : w.lockInit with
    | some err => simp [h1, h2] at h
    | none =>
      cases h3 : w.trueGitInit with
      | some err => simp [h1, h2, h3] at h
      | none =>
        cases h4 : w.dockerRegistryInit w.InsecureRepo with
        | some err => simp [h1, h2, h3, h4] at h
        | none =>
          rcases h5 : Docker.Init w.dockerWorld w.DockerConfig with ⟨t, _ | err⟩
          · have hmem := dockerInit_serverVersion w.dockerWorld w.DockerConfig t h5
            simp [h1, h2, h3, h4, h5] at h
            rw [← h]
            simp [hmem]
          · simp [h1, h2, h3, h4, h5] at h

/-- C4, as stated, fails: in the world where everything succeeds and only
`web` is declared, the request `web`, `missing` ends in the unknown-image
error after `docker.Init` has asked the docker daemon for its version. -/
theorem runImagesPublish_daemon_request_before_error :
    (runImagesPublish (okWorld ["web"]) ["web", "missing"]).2
        = some "specified image missing is not defined in werf.yaml"
    ∧ Effect.docker Docker.Effect.serverVersion
        ∈ (runImagesPublish (okWorld ["web"]) ["web", "missing"]).1
    ∧ ((runImagesPublish (okWorld ["web"]) ["web", "missing"]).1.any Effect.isNetwork)
        = true := by
  decide

/-- C4, amended: once initialisation and configuration loading have succeeded,
a request with an undeclared name ends in the error of the name check after the
calls of initialisation and configuration loading and no others: no project
tmp dir is created or released, no stages repo, images repo or tag options are
read, no SSH agent is started or terminated, no conveyor is built and
`PublishImages` is not called; the daemon version request of `docker.Init` is
among the calls made, on every such run, and it is the one network call
among them. -/
theorem runImagesPublish_unknown_image_effects (w : World) (imgs : List String)
    (t1 t2 : List Effect) (projectDir : String) (cfg : WerfConfig)
    (hinit : initAll w = (t1, none)) (hcfg : loadConfig w = (t2, .ok (projectDir, cfg)))
    (n : String) (hn : n ∈ imgs) (hmissing : cfg.HasImage n = false) :
    (runImagesPublish w imgs).1 = t1 ++ t2
    ∧ (runImagesPublish w imgs).2 = checkImages w cfg imgs
    ∧ (checkImages w cfg imgs).isSome = true
    ∧ Effect.createProjectDir ∉ (runImagesPublish w imgs).1
    ∧ (∀ dir, Effect.releaseProjectDir dir ∉ (runImagesPublish w imgs).1)
    ∧ Effect.getStagesRepo ∉ (runImagesPublish w imgs).1
    ∧ Effect.getImagesRepo ∉ (runImagesPublish w imgs).1
    ∧ Effect.getTagOptions ∉ (runImagesPublish w imgs).1
    ∧ Effect.sshAgentInit ∉ (runImagesPublish w imgs).1
    ∧ Effect.sshAgentTerminate ∉ (runImagesPublish w imgs).1
    ∧ Effect.newConveyor ∉ (runImagesPublish w imgs).1
    ∧ Effect.publishImages ∉ (runImagesPublish w imgs).1
    ∧ (∀ e ∈ (runImagesPublish w imgs).1, e.isNetwork = true →
        e = Effect.docker Docker.Effect.serverVersion)
    ∧ Effect.docker Docker.Effect.serverVersion ∈ (runImagesPublish w imgs).1
    ∧ ((runImagesPublish w imgs).1.any Effect.isNetwork) = true := by
  have hsome : (checkImages w cfg imgs).isSome = true :=
    (checkImages_isSome_iff w cfg imgs).2 ⟨n, hn, hmissing⟩
  obtain ⟨err, herr⟩ := Option.isSome_iff_exists.1 hsome
  have hrun : runImagesPublish w imgs = (t1 ++ t2, some err) := by
    rw [runImagesPublish_of_setup w _ t1 t2 projectDir cfg hinit hcfg, herr]
  have hsetup : ∀ e ∈ (runImagesPublish w imgs).1, e.isSetup = true := by
    intro e he
    rw [hrun] at he
    rcases List.mem_append.1 he with h | h
    · exact initAll_isSetup w e (by rw [hinit]; exact h)
    · exact loadConfig_isSetup w e (by rw [hcfg]; exact h)
  have hnot : ∀ e : Effect, e.isSetup = false → e ∉ (runImagesPublish w imgs).1 := by
    intro e he hmem
    rw [hsetup e hmem] at he
    exact absurd he (by decide)
  refine ⟨by rw [hrun], by rw [hrun, herr], hsome, hnot _ rfl, fun dir => hnot _ rfl,
    hnot _ rfl, hnot _ rfl, hnot _ rfl, hnot _ rfl, hnot _ rfl, hnot _ rfl, hnot _ rfl, ?_,
    ?_, ?_⟩
  · intro e he hnet
    exact isNetwork_of_isSetup e (hsetup e he) hnet
  · rw [hrun]
    exact List.mem_append.2 (Or.inl (initAll_serverVersion w t1 hinit))
  · rw [hrun]
    exact List.any_eq_true.2 ⟨_, List.mem_append.2 (Or.inl (initAll_serverVersion w t1 hinit)),
      rfl⟩

/-- C4 amended, in the world declaring only `web`, for the request `web`,
`missing`. -/
theorem runImagesPublish_unknown_image_effects_witness :
    Effect.createProjectDir ∉ (runImagesPublish (okWorld ["web"]) ["web", "missing"]).1
    ∧ Effect.publishImages ∉ (runImagesPublish (okWorld ["web"]) ["web", "missing"]).1
    ∧ Effect.docker Docker.Effect.serverVersion
        ∈ (runImagesPublish (okWorld ["web"]) ["web", "missing"]).1 :=
  have h := runImagesPublish_unknown_image_effects (okWorld ["web"]) ["web", "missing"]
    (initAll (okWorld ["web"])).1 (loadConfig (okWorld ["web"])).1 "/project"
    { Project := "demo", HasImage := fun n => ["web"].contains n } rfl rfl
    "missing" (by simp) rfl
  ⟨h.2.2.2.1, h.2.2.2.2.2.2.2.2.2.2.2.1, h.2.2.2.2.2.2.2.2.2.2.2.2.2.1⟩

/-! ### Deferred cleanup -/

theorem publishSession_cleanup (w : World) (imgs : List String) (pd : String)
    (cfg : WerfConfig) :
    (∀ dir, w.createProjectDir = .ok dir →
        (publishSession w imgs pd cfg).1.count (Effect.releaseProjectDir dir) = 1
        ∧ (publishSession w imgs pd cfg).1.getLast? = some (Effect.releaseProjectDir dir)
        ∧ ∀ d, Effect.releaseProjectDir d ∈ (publishSession w imgs pd cfg).1 → d = dir)
    ∧ (Effect.sshAgentInit ∈ (publishSession w imgs pd cfg).1 →
        w.sshAgentInit w.SSHKeys = none →
        (publishSession w imgs pd cfg).1.count Effect.sshAgentTerminate = 1
        ∧ ∃ a b, (publishSession w imgs pd cfg).1
            = a ++ Effect.publishImages :: Effect.sshAgentTerminate :: b) := by
  cases h1 : w.createProjectDir with
  | error err => simp [publishSession, h1]
  | ok dir =>
    cases h2 : w.getStagesRepo with
    | some err => simp [publishSession, publishInProjectDir, h1, h2]
    | none =>
      cases h3 : w.getImagesRepo cfg.Project with
      | error err => simp [publishSession, publishInProjectDir, h1, h2, h3]
      | ok repo =>
        cases h4 : w.getTagOptions with
        | error err => simp [publishSession, publishInProjectDir, h1, h2, h3, h4]
        | ok tag =>
          cases h5 : w.sshAgentInit w.SSHKeys with
          | some err => simp [publishSession, publishInProjectDir, h1, h2, h3, h4, h5]
          | none =>
            cases h6 : w.sshAgentTerminate with
            | none =>
              simp [publishSession, publishInProjectDir, publishWithAgent, h1, h2, h3, h4, h5, h6]
              exact ⟨[Effect.createProjectDir, Effect.getStagesRepo, Effect.getImagesRepo,
                Effect.getTagOptions, Effect.sshAgentInit, Effect.newConveyor], _, rfl⟩
            | some err =>
              simp [publishSession, publishInProjectDir, publishWithAgent, h1, h2, h3, h4, h5, h6]
              exact ⟨[Effect.createProjectDir, Effect.getStagesRepo, Effect.getImagesRepo,
                Effect.getTagOptions, Effect.sshAgentInit, Effect.newConveyor], _, rfl⟩

theorem publishSession_ne_nil (w : World) (imgs : List String) (pd : String)
    (cfg : WerfConfig) : (publishSession w imgs pd cfg).1 ≠ [] := by
  unfold publishSession
  cases w.createProjectDir <;> simp

/-- The calls of `runImagesPublish` are those of initialisation and
configuration loading, followed by those of the publish session if it is
reached. -/
theorem runImagesPublish_shape (w : World) (imgs : List String) :
    (∀ e ∈ (runImagesPublish w imgs).1, e.isSetup = true)
    ∨ ∃ (pre : List Effect) (pd : String) (cfg : WerfConfig),
        (∀ e ∈ pre, e.isSetup = true)
        ∧ runImagesPublish w imgs
            = (pre ++ (publishSession w imgs pd cfg).1, (publishSession w imgs pd cfg).2) := by
  have h1 := initAll_isSetup w
  have h2 := loadConfig_isSetup w
  have h12 : ∀ e ∈ (initAll w).1 ++ (loadConfig w).1, e.isSetup = true := by
    intro e he
    rcases List.mem_append.1 he with h | h
    · exact h1 e h
    · exact h2 e h
  rcases hi : initAll w with ⟨t1, _ | err⟩
  · rcases hc : loadConfig w with ⟨t2, err | ⟨pd, cfg⟩⟩
    · left
      rw [hi, hc] at h12
      simpa [runImagesPublish, hi, hc] using h12
    · cases hk : checkImages w cfg imgs with
      | some err =>
        left
        rw [hi, hc] at h12
        simpa [runImagesPublish, hi, hc, hk] using h12
      | none =>
        right
        refine ⟨t1 ++ t2, pd, cfg, ?_, ?_⟩
        · rw [hi, hc] at h12
          exact h12
        · simp [runImagesPublish, hi, hc, hk]
  · left
    rw [hi] at h1
    simpa [runImagesPublish, hi] using h1

/-- C5: whatever the later steps return, a run on which
`tmp_manager.CreateProjectDir` was called and succeeded releases that project
tmp dir exactly once, as its last call, and releases no other dir; and a run on
which `ssh_agent.Init` was called and succeeded calls `ssh_agent.Terminate`
exactly once, right after `PublishImages`. -/
theorem runImagesPublish_cleanup (w : World) (imgs : List String) :
    (∀ dir, Effect.createProjectDir ∈ (runImagesPublish w imgs).1 →
        w.createProjectDir = .ok dir →
        (runImagesPublish w imgs).1.count (Effect.releaseProjectDir dir) = 1
        ∧ (runImagesPublish w imgs).1.getLast? = some (Effect.releaseProjectDir dir)
        ∧ ∀ d, Effect.releaseProjectDir d ∈ (runImagesPublish w imgs).1 → d = dir)
    ∧ (Effect.sshAgentInit ∈ (runImagesPublish w imgs).1 →
        w.sshAgentInit w.SSHKeys = none →
        (runImagesPublish w imgs).1.count Effect.sshAgentTerminate = 1
        ∧ ∃ a b, (runImagesPublish w imgs).1
            = a ++ Effect.publishImages :: Effect.sshAgentTerminate :: b) := by
  rcases runImagesPublish_shape w imgs with hsetup | ⟨pre, pd, cfg, hpre, hrun⟩
  · refine ⟨fun dir hmem _ => ?_, fun hmem _ => ?_⟩
    · exact absurd (hsetup _ hmem) (by decide)
    · exact absurd (hsetup _ hmem) (by decide)
  · have hnot : ∀ e : Effect, e.isSetup = false → e ∉ pre := by
      intro e he hmem
      rw [hpre e hmem] at he
      exact absurd he (by decide)
    have hcount : ∀ e : Effect, e.isSetup = false → pre.count e = 0 :=
      fun e he => List.count_eq_zero.2 (hnot e he)
    obtain ⟨hdir, hssh⟩ := publishSession_cleanup w imgs pd cfg
    rw [hrun]
    refine ⟨fun dir _ hok => ?_, fun hmem hok => ?_⟩
    · obtain ⟨hc, hl, hu⟩ := hdir dir hok
      refine ⟨?_, ?_, ?_⟩
      · simp only [List.count_append, hcount (Effect.releaseProjectDir dir) rfl, hc]
      · simp only [List.getLast?_append, hl, Option.or_some]
      · intro d hd
        rcases List.mem_append.1 hd with h | h
        · exact absurd h (hnot _ rfl)
        · exact hu d h
    · have hmem2 : Effect.sshAgentInit ∈ (publishSession w imgs pd cfg).1 := by
        rcases List.mem_append.1 hmem with h | h
        · exact absurd h (hnot _ rfl)
        · exact h
      obtain ⟨hc, a, b, hab⟩ := hssh hmem2 hok
      refine ⟨?_, pre ++ a, b, ?_⟩
      · simp only [List.count_append, hcount Effect.sshAgentTerminate rfl, hc]
      · simp only [hab, List.append_assoc]

/-- C5 in the world where the push and the agent termination both fail. -/
theorem runImagesPublish_cleanup_witness :
    (runImagesPublish (failingWorld ["web"]) ["web"]).2 = some "push failed"
    ∧ (runImagesPublish (failingWorld ["web"]) ["web"]).1.count
        (Effect.releaseProjectDir "/tmp/werf-project") = 1
    ∧ (runImagesPublish (failingWorld ["web"]) ["web"]).1.count Effect.sshAgentTerminate
        = 1 :=
  ⟨by decide,
    ((runImagesPublish_cleanup (failingWorld ["web"]) ["web"]).1 "/tmp/werf-project"
      (by decide) rfl).1,
    ((runImagesPublish_cleanup (failingWorld ["web"]) ["web"]).2 (by decide) rfl).1⟩

/-! ### The result does not depend on the agent termination -/

theorem checkImages_terminate (w : World) (e : Option String) (cfg : WerfConfig)
    (imgs : List String) :
    checkImages { w with sshAgentTerminate := e } cfg imgs = checkImages w cfg imgs := by
  induction imgs with
  | nil => rfl
  | cons n rest ih => simp only [checkImages, ih]

theorem publishSession_terminate (w : World) (e : Option String) (imgs : List String)
    (pd : String) (cfg : WerfConfig) :
    (publishSession { w with sshAgentTerminate := e } imgs pd cfg).2
      = (publishSession w imgs pd cfg).2 := by
  simp only [publishSession, publishInProjectDir, publishWithAgent]
  cases w.createProjectDir <;> simp only []
  cases w.getStagesRepo <;> simp only []
  cases w.getImagesRepo cfg.Project <;> simp only []
  cases w.getTagOptions <;> simp only []
  cases w.sshAgentInit w.SSHKeys <;> simp only []

/-- C6: the error returned by `runImagesPublish` is the same for every outcome
of `ssh_agent.Terminate`; on the runs that reach it the returned value is the
result of `PublishImages`, the calls made are the same up to one
`logboek.LogErrorF` warning written when the termination fails, and no other
message is logged. -/
theorem runImagesPublish_terminate_not_escalated (w : World) (imgs : List String) :
    (∀ e : Option String,
        (runImagesPublish { w with sshAgentTerminate := e } imgs).2
          = (runImagesPublish w imgs).2)
    ∧ (∀ (t1 t2 : List Effect) (pd : String) (cfg : WerfConfig) (dir repo tag : String),
        initAll w = (t1, none) → loadConfig w = (t2, .ok (pd, cfg)) →
        checkImages w cfg imgs = none → w.createProjectDir = .ok dir →
        w.getStagesRepo = none → w.getImagesRepo cfg.Project = .ok repo →
        w.getTagOptions = .ok tag → w.sshAgentInit w.SSHKeys = none →
        (runImagesPublish w imgs).2 = w.publishImages imgs pd dir repo tag
        ∧ (runImagesPublish w imgs).1
            = t1 ++ t2
              ++ [Effect.createProjectDir, Effect.getStagesRepo, Effect.getImagesRepo,
                  Effect.getTagOptions, Effect.sshAgentInit, Effect.newConveyor,
                  Effect.publishImages, Effect.sshAgentTerminate]
              ++ (match w.sshAgentTerminate with
                  | some err =>
                    [Effect.logError
                      ("WARNING: ssh agent termination failed: " ++ err ++ "\n")]
                  | none => [])
              ++ [Effect.releaseProjectDir dir])
    ∧ (∀ msg : String, Effect.logError msg ∈ (runImagesPublish w imgs).1 →
        ∃ err, w.sshAgentTerminate = some err
          ∧ msg = "WARNING: ssh agent termination failed: " ++ err ++ "\n") := by
  refine ⟨?_, ?_, ?_⟩
  · intro e
    have hi : initAll { w with sshAgentTerminate := e } = initAll w := rfl
    have hc : loadConfig { w with sshAgentTerminate := e } = loadConfig w := rfl
    simp only [runImagesPublish, hi, hc]
    rcases initAll w with ⟨t1, _ | err⟩
    · rcases loadConfig w with ⟨t2, err | ⟨pd, cfg⟩⟩
      · rfl
      · simp only [checkImages_terminate]
        cases checkImages w cfg imgs with
        | some err => rfl
        | none => exact publishSession_terminate w e imgs pd cfg
    · rfl
  · intro t1 t2 pd cfg dir repo tag hi hc hk h1 h2 h3 h4 h5
    rw [runImagesPublish_of_setup w imgs t1 t2 pd cfg hi hc, hk]
    cases h6 : w.sshAgentTerminate <;>
      simp [publishSession, publishInProjectDir, publishWithAgent, h1, h2, h3, h4, h5, h6]
  · intro msg hmem
    rcases runImagesPublish_shape w imgs with hsetup | ⟨pre, pd, cfg, hpre, hrun⟩
    · exact absurd (hsetup _ hmem) (by simp [Effect.isSetup])
    · rw [hrun] at hmem
      rcases List.mem_append.1 hmem with h | h
      · exact absurd (hpre _ h) (by simp [Effect.isSetup])
      · revert h
        simp only [publishSession, publishInProjectDir, publishWithAgent]
        cases w.createProjectDir <;> simp
        cases w.getStagesRepo <;> simp
        cases w.getImagesRepo cfg.Project <;> simp
        cases w.getTagOptions <;> simp
        cases w.sshAgentInit w.SSHKeys <;> simp
        cases w.sshAgentTerminate <;> simp

/-- C6 in the world where the push and the agent termination both fail: the
error returned is that of the push, and the termination error is only logged. -/
theorem runImagesPublish_terminate_not_escalated_witness :
    (runImagesPublish (failingWorld ["web"]) ["web"]).2 = some "push failed"
    ∧ (runImagesPublish { failingWorld ["web"] with sshAgentTerminate := none } ["web"]).2
        = some "push failed"
    ∧ Effect.logError "WARNING: ssh agent termination failed: agent is gone\n"
        ∈ (runImagesPublish (failingWorld ["web"]) ["web"]).1 :=
  ⟨by decide,
    ((runImagesPublish_terminate_not_escalated (failingWorld ["web"]) ["web"]).1 none).trans
      (by decide),
    by decide⟩

end Publish

namespace Config

/-! ### Decoding an ansible node under a dimg -/

/-- C8: decoding a `RawAnsible` node while a `*RawDimg` is on top of
`ParentStack` records that dimg as the node's parent; a decode error is
returned after the decoder call alone, and otherwise the value returned is that
of `CheckOverflow` on the node's unsupported attributes and the parent dimg's
document, so an error is returned exactly when the decode or that check
fails.  The call never panics. -/
theorem UnmarshalYAML_dimg_parent (d : Decoder) (c : RawAnsible) (parent : RawDimg)
    (rest : List Parent) (decoded : RawAnsible) (derr : Option String)
    (stack2 : List Parent)
    (hdec : d.unmarshal { c with RawDimg := some parent }
        (Parent.rawAnsible { c with RawDimg := some parent } :: Parent.rawDimg parent :: rest)
      = (decoded, derr, stack2)) :
    (UnmarshalYAML d c (Parent.rawDimg parent :: rest)).node
        = { decoded with RawDimg := some parent }
    ∧ (UnmarshalYAML d c (Parent.rawDimg parent :: rest)).node.RawDimg = some parent
    ∧ (UnmarshalYAML d c (Parent.rawDimg parent :: rest)).stack = stack2.tail
    ∧ (∀ err, derr = some err →
        (UnmarshalYAML d c (Parent.rawDimg parent :: rest)).outcome = .returned (some err)
        ∧ (UnmarshalYAML d c (Parent.rawDimg parent :: rest)).calls = [Call.unmarshal])
    ∧ (derr = none →
        (UnmarshalYAML d c (Parent.rawDimg parent :: rest)).outcome
          = .returned (d.checkOverflow decoded.UnsupportedAttributes
              { decoded with RawDimg := some parent } parent.Doc)
        ∧ (UnmarshalYAML d c (Parent.rawDimg parent :: rest)).calls
          = [Call.unmarshal, Call.checkOverflow parent.Doc])
    ∧ ((∃ err, (UnmarshalYAML d c (Parent.rawDimg parent :: rest)).outcome
          = .returned (some err))
        ↔ (derr.isSome = true
            ∨ (d.checkOverflow decoded.UnsupportedAttributes
                { decoded with RawDimg := some parent } parent.Doc).isSome = true)) := by
  cases derr with
  | some e => simp [UnmarshalYAML, hdec]
  | none =>
    cases hk : d.checkOverflow decoded.UnsupportedAttributes
      { decoded with RawDimg := some parent } parent.Doc <;>
      simp [UnmarshalYAML, hdec, hk]

/-- C8 for the dimg `app` of `werf.yaml` and a node with the unknown key
`shell`: the parent is recorded and the overflow check fails. -/
theorem UnmarshalYAML_dimg_parent_witness :
    (UnmarshalYAML strictDecoder ⟨[], [], [], [], none, []⟩
        [Parent.rawDimg ⟨"app", ⟨"werf.yaml", 1⟩⟩]).node.RawDimg
      = some ⟨"app", ⟨"werf.yaml", 1⟩⟩
    ∧ (UnmarshalYAML strictDecoder ⟨[], [], [], [], none, []⟩
        [Parent.rawDimg ⟨"app", ⟨"werf.yaml", 1⟩⟩]).outcome
      = .returned (some "unsupported attributes in werf.yaml") :=
  have h := UnmarshalYAML_dimg_parent strictDecoder ⟨[], [], [], [], none, []⟩
    ⟨"app", ⟨"werf.yaml", 1⟩⟩ [] _ none _ rfl
  ⟨h.2.1, (h.2.2.2.2.1 rfl).1⟩

/-! ### Conversion of the task lists -/

theorem convertTasks_ok (d : Directives) (tasks : List RawAnsibleTask)
    (converted acc : List AnsibleTask)
    (h : tasks.map d.taskToDirective = converted.map Except.ok) :
    convertTasks d tasks acc = (tasks, .ok (acc ++ converted)) := by
  induction tasks generalizing converted acc with
  | nil =>
    cases converted with
    | nil => simp [convertTasks]
    | cons a rest => simp at h
  | cons task tasks ih =>
    cases converted with
    | nil => simp at h
    | cons a converted =>
      simp only [List.map_cons, List.cons.injEq] at h
      simp only [convertTasks, h.1, ih converted (acc ++ [a]) h.2]
      simp

theorem convertTasks_fail (d : Directives) (pre : List RawAnsibleTask)
    (task : RawAnsibleTask) (post : List RawAnsibleTask) (converted acc : List AnsibleTask)
    (err : String) (h : pre.map d.taskToDirective = converted.map Except.ok)
    (hfail : d.taskToDirective task = .error err) :
    convertTasks d (pre ++ task :: post) acc = (pre ++ [task], .error err) := by
  induction pre generalizing converted acc with
  | nil => simp [convertTasks, hfail]
  | cons p pre ih =>
    cases converted with
    | nil => simp at h
    | cons a converted =>
      simp only [List.map_cons, List.cons.injEq] at h
      have ih2 := ih converted (acc ++ [a]) h.2
      simp only [List.cons_append, convertTasks, h.1]
      rw [show pre.append (task :: post) = pre ++ task :: post from rfl, ih2]

theorem length_eq_of_map_ok (d : Directives) (tasks : List RawAnsibleTask)
    (converted : List AnsibleTask)
    (h : tasks.map d.taskToDirective = converted.map Except.ok) :
    converted.length = tasks.length := by
  have := congrArg List.length h
  simpa using this.symm

theorem getElem?_of_map_ok (d : Directives) (tasks : List RawAnsibleTask)
    (converted : List AnsibleTask)
    (h : tasks.map d.taskToDirective = converted.map Except.ok) (i : Nat) :
    (tasks[i]?).map d.taskToDirective = (converted[i]?).map Except.ok := by
  have := congrArg (fun l => l[i]?) h
  simpa using this

/-- C9: when the tasks of the four raw lists convert to `b`, `i`, `s`, `u`
(element by element, in order) and the validation accepts the result,
`ToDirective` returns the directive with exactly these four lists, each as long
as its raw list, and with `Raw` the receiver, having converted every task once
in the order `BeforeInstall`, `Install`, `BeforeSetup`, `Setup`; when a task
fails after all tasks before it in that order converted, `ToDirective` returns
no directive and that task's error, and the failing task is the last one
converted. -/
theorem ToDirective_ordered (d : Directives) (c : RawAnsible) :
    (∀ b i s u : List AnsibleTask,
        c.BeforeInstall.map d.taskToDirective = b.map Except.ok →
        c.Install.map d.taskToDirective = i.map Except.ok →
        c.BeforeSetup.map d.taskToDirective = s.map Except.ok →
        c.Setup.map d.taskToDirective = u.map Except.ok →
        d.validate ⟨b, i, s, u, some c⟩ = none →
        ToDirective d c
            = (c.BeforeInstall ++ c.Install ++ c.BeforeSetup ++ c.Setup,
                some ⟨b, i, s, u, some c⟩, none)
        ∧ b.length = c.BeforeInstall.length ∧ i.length = c.Install.length
        ∧ s.length = c.BeforeSetup.length ∧ u.length = c.Setup.length
        ∧ ∀ k : Nat,
            (c.BeforeInstall[k]?).map d.taskToDirective = (b[k]?).map Except.ok
            ∧ (c.Install[k]?).map d.taskToDirective = (i[k]?).map Except.ok
            ∧ (c.BeforeSetup[k]?).map d.taskToDirective = (s[k]?).map Except.ok
            ∧ (c.Setup[k]?).map d.taskToDirective = (u[k]?).map Except.ok)
    ∧ (∀ (pre : List RawAnsibleTask) (task : RawAnsibleTask) (post : List RawAnsibleTask)
        (done : List AnsibleTask) (err : String),
        c.BeforeInstall = pre ++ task :: post →
        pre.map d.taskToDirective = done.map Except.ok →
        d.taskToDirective task = .error err →
        ToDirective d c = (pre ++ [task], none, some err))
    ∧ (∀ (b : List AnsibleTask) (pre : List RawAnsibleTask) (task : RawAnsibleTask)
        (post : List RawAnsibleTask) (done : List AnsibleTask) (err : String),
        c.BeforeInstall.map d.taskToDirective = b.map Except.ok →
        c.Install = pre ++ task :: post →
        pre.map d.taskToDirective = done.map Except.ok →
        d.taskToDirective task = .error err →
        ToDirective d c = (c.BeforeInstall ++ (pre ++ [task]), none, some err))
    ∧ (∀ (b i : List AnsibleTask) (pre : List RawAnsibleTask) (task : RawAnsibleTask)
        (post : List RawAnsibleTask) (done : List AnsibleTask) (err : String),
        c.BeforeInstall.map d.taskToDirective = b.map Except.ok →
        c.Install.map d.taskToDirective = i.map Except.ok →
        c.BeforeSetup = pre ++ task :: post →
        pre.map d.taskToDirective = done.map Except.ok →
        d.taskToDirective task = .error err →
        ToDirective d c = (c.BeforeInstall ++ c.Install ++ (pre ++ [task]), none, some err))
    ∧ (∀ (b i s : List AnsibleTask) (pre : List RawAnsibleTask) (task : RawAnsibleTask)
        (post : List RawAnsibleTask) (done : List AnsibleTask) (err : String),
        c.BeforeInstall.map d.taskToDirective = b.map Except.ok →
        c.Install.map d.taskToDirective = i.map Except.ok →
        c.BeforeSetup.map d.taskToDirective = s.map Except.ok →
        c.Setup = pre ++ task :: post →
        pre.map d.taskToDirective = done.map Except.ok →
        d.taskToDirective task = .error err →
        ToDirective d c
          = (c.BeforeInstall ++ c.Install ++ c.BeforeSetup ++ (pre ++ [task]),
              none, some err)) := by
  refine ⟨?_, ?_, ?_, ?_, ?_⟩
  · intro b i s u hb hi hs hu hv
    refine ⟨?_, length_eq_of_map_ok d _ _ hb, length_eq_of_map_ok d _ _ hi,
      length_eq_of_map_ok d _ _ hs, length_eq_of_map_ok d _ _ hu,
      fun k => ⟨getElem?_of_map_ok d _ _ hb k, getElem?_of_map_ok d _ _ hi k,
        getElem?_of_map_ok d _ _ hs k, getElem?_of_map_ok d _ _ hu k⟩⟩
    simp [ToDirective, ValidateDirective, convertTasks_ok d _ _ [] hb,
      convertTasks_ok d _ _ [] hi, convertTasks_ok d _ _ [] hs,
      convertTasks_ok d _ _ [] hu, hv]
  · intro pre task post done err hsplit hpre hfail
    simp [ToDirective, hsplit, convertTasks_fail d pre task post done [] err hpre hfail]
  · intro b pre task post done err hb hsplit hpre hfail
    simp [ToDirective, convertTasks_ok d _ _ [] hb, hsplit,
      convertTasks_fail d pre task post done [] err hpre hfail]
  · intro b i pre task post done err hb hi hsplit hpre hfail
    simp [ToDirective, convertTasks_ok d _ _ [] hb, convertTasks_ok d _ _ [] hi, hsplit,
      convertTasks_fail d pre task post done [] err hpre hfail]
  · intro b i s pre task post done err hb hi hs hsplit hpre hfail
    simp [ToDirective, convertTasks_ok d _ _ [] hb, convertTasks_ok d _ _ [] hi,
      convertTasks_ok d _ _ [] hs, hsplit,
      convertTasks_fail d pre task post done [] err hpre hfail]

/-- C9 on a node with one `beforeInstall` task and the install tasks `apt`,
`bad`, `copy`: the error is that of `bad`, and `copy` is not converted; without
`bad` the directive keeps the order. -/
theorem ToDirective_ordered_witness :
    ToDirective demoDirectives ⟨[⟨"deps"⟩], [⟨"apt"⟩, ⟨"bad"⟩, ⟨"copy"⟩], [], [⟨"run"⟩], none, []⟩
      = ([⟨"deps"⟩, ⟨"apt"⟩, ⟨"bad"⟩], none, some "bad task")
    ∧ ToDirective demoDirectives ⟨[⟨"deps"⟩], [⟨"apt"⟩, ⟨"copy"⟩], [], [⟨"run"⟩], none, []⟩
      = ([⟨"deps"⟩, ⟨"apt"⟩, ⟨"copy"⟩, ⟨"run"⟩],
          some ⟨[⟨"deps"⟩], [⟨"apt"⟩, ⟨"copy"⟩], [], [⟨"run"⟩],
            some ⟨[⟨"deps"⟩], [⟨"apt"⟩, ⟨"copy"⟩], [], [⟨"run"⟩], none, []⟩⟩, none) :=
  ⟨(ToDirective_ordered demoDirectives
        ⟨[⟨"deps"⟩], [⟨"apt"⟩, ⟨"bad"⟩, ⟨"copy"⟩], [], [⟨"run"⟩], none, []⟩).2.2.1
      [⟨"deps"⟩] [⟨"apt"⟩] ⟨"bad"⟩ [⟨"copy"⟩] [⟨"apt"⟩] "bad task" rfl rfl rfl rfl,
    ((ToDirective_ordered demoDirectives
        ⟨[⟨"deps"⟩], [⟨"apt"⟩, ⟨"copy"⟩], [], [⟨"run"⟩], none, []⟩).1
      [⟨"deps"⟩] [⟨"apt"⟩, ⟨"copy"⟩] [] [⟨"run"⟩] rfl rfl rfl rfl rfl).1⟩

end Config

namespace Docker

/-! ### The API client and the daemon version -/

/-- C11: whatever `ServerVersion` returns (a version, an error, or both),
`setDockerApiClient` asks the daemon for its version, calls
`client.NewClientWithOpts` with the `APIVersion` of the answer and returns
exactly the error of that construction; so it returns an error if and only if
the construction fails, replacing the error of the version request by any
other leaves the calls and the result as they are, and `Init` returns no error
when every call but the version request succeeds. -/
theorem setDockerApiClient_error_iff (w : World) :
    setDockerApiClient w
        = ([Effect.serverVersion, Effect.newClientWithOpts w.serverVersion.1],
            w.newClientWithOpts w.serverVersion.1)
    ∧ ((setDockerApiClient w).2.isSome = true ↔
        (w.newClientWithOpts w.serverVersion.1).isSome = true)
    ∧ (∀ (v : String) (e1 e2 : Option String),
        setDockerApiClient { w with serverVersion := (v, e1) }
          = setDockerApiClient { w with serverVersion := (v, e2) })
    ∧ (∀ (v verr : String), w.serverVersion = (v, some verr) →
        w.newClientWithOpts v = none → (setDockerApiClient w).2 = none)
    ∧ (∀ (dockerConfigDir v verr : String), w.setenv "DOCKER_CONFIG" dockerConfigDir = none →
        w.newDockerCli = none → w.cliInit = none → w.serverVersion = (v, some verr) →
        w.newClientWithOpts v = none →
        (Init w dockerConfigDir).2 = none
        ∧ Effect.serverVersion ∈ (Init w dockerConfigDir).1) := by
  have hmain : ∀ w2 : World, setDockerApiClient w2
      = ([Effect.serverVersion, Effect.newClientWithOpts w2.serverVersion.1],
          w2.newClientWithOpts w2.serverVersion.1) := by
    intro w2
    rcases hv : w2.serverVersion with ⟨v, e⟩
    cases hc : w2.newClientWithOpts v <;> simp [setDockerApiClient, hv, hc]
  refine ⟨hmain w, by rw [hmain w], ?_, ?_, ?_⟩
  · intro v e1 e2
    rw [hmain, hmain]
  · intro v verr hv hc
    rw [hmain w, hv]
    exact hc
  · intro dockerConfigDir v verr henv hcli hinit hv hc
    have hapi : setDockerApiClient w
        = ([Effect.serverVersion, Effect.newClientWithOpts v], none) := by
      rw [hmain w, hv]
      simp [hc]
    simp [Init, setDockerClient, hapi, henv, hcli, hinit]

/-- C11 with a daemon that does not answer the version request, and with one
that answers with a version and an error at once: `Init` returns no error, and
the client is built for the version returned. -/
theorem setDockerApiClient_error_iff_witness :
    silentDaemon.serverVersion = ("", some "cannot connect to the docker daemon")
    ∧ (Init silentDaemon "").2 = none
    ∧ setDockerApiClient garbledDaemon
        = ([Effect.serverVersion, Effect.newClientWithOpts "1.24"], none) :=
  ⟨rfl,
    ((setDockerApiClient_error_iff silentDaemon).2.2.2.2 "" ""
      "cannot connect to the docker daemon" rfl rfl rfl rfl rfl).1,
    (setDockerApiClient_error_iff garbledDaemon).1⟩

end Docker

end Werf
